import Mathlib

/-!
# AIY Voice Bonnet machine driver (snd-aiy-voicebonnet.c)

A shallow embedding of the three functions of the driver that carry logic:

* `snd_rpi_aiy_voicebonnet_init`       (one-time link initialisation),
* `snd_rpi_aiy_voicebonnet_hw_params`  (per-stream clock negotiation),
* `snd_rpi_aiy_voicebonnet_probe`      (platform probe).

The driver only talks to the rest of the kernel (the rt5645 codec driver, the
ASoC core, the device-tree helpers).  Those collaborators are not part of the
repository, so they are a parameter: a `Kernel σ` gives, for every external
function the driver calls, a deterministic transformer of an arbitrary state
`σ` together with the value the call returns.  Every external call the driver
makes is appended, with its arguments and its result, to `World.trace`, so
that "which calls were issued, in which order" can be stated.

C `int` results are `Int`; `unsigned int` values are `Nat`, reduced modulo
`2 ^ 32` where the C code multiplies.  Pointers that may be `NULL` are
`Option`.  `dev_dbg` lines are compiled out unless debugging is enabled and
have no effect on control flow; they are not modelled.  `dev_err` lines are
recorded in `World.dmesg`.
-/

namespace AiyVoiceBonnet

/-! ## Constants that come from headers outside the source file -/

/-- Values of the macros and enumerators the driver uses from `rt5645.h`,
`sound/soc-dai.h`, `sound/jack.h` and `errno-base.h`.  None of these headers
is part of the source file, so the values are a parameter of the model. -/
structure Consts where
  RT5645_DA_STEREO_FILTER : Nat
  RT5645_AD_STEREO_FILTER : Nat
  RT5645_DA_MONO_L_FILTER : Nat
  RT5645_DA_MONO_R_FILTER : Nat
  RT5645_CLK_SEL_I2S1_ASRC : Nat
  RT5645_SCLK_S_MCLK : Int
  RT5645_SCLK_S_PLL1 : Int
  RT5645_PLL1_S_MCLK : Int
  SND_SOC_CLOCK_IN : Int
  SND_SOC_CLOCK_OUT : Int
  SND_JACK_HEADPHONE : Int
  SND_SOC_DAIFMT_I2S : Nat
  SND_SOC_DAIFMT_NB_NF : Nat
  SND_SOC_DAIFMT_CBS_CFS : Nat
  EINVAL : Int
  deriving DecidableEq

/-- The values these constants have in the mainline Linux headers.  Used only
where a statement is evaluated on a concrete input; every general theorem is
proved for arbitrary `Consts`. -/
def linux : Consts where
  RT5645_DA_STEREO_FILTER := 0x1
  RT5645_AD_STEREO_FILTER := 0x8
  RT5645_DA_MONO_L_FILTER := 0x2
  RT5645_DA_MONO_R_FILTER := 0x4
  RT5645_CLK_SEL_I2S1_ASRC := 1
  RT5645_SCLK_S_MCLK := 0
  RT5645_SCLK_S_PLL1 := 1
  RT5645_PLL1_S_MCLK := 0
  SND_SOC_CLOCK_IN := 0
  SND_SOC_CLOCK_OUT := 1
  SND_JACK_HEADPHONE := 0x0001
  SND_SOC_DAIFMT_I2S := 1
  SND_SOC_DAIFMT_NB_NF := 0
  SND_SOC_DAIFMT_CBS_CFS := 0x4000
  EINVAL := 22

/-! ## Data model -/

/-- A kernel object the driver only passes around (a `struct snd_soc_dai *`, `struct snd_soc_codec *`,
`struct device_node *`, ...), identified by a number. -/
abbrev Handle := Nat

/-- The macro `PLATFORM_CLOCK`, defined as 24576000 (24.576 MHz). -/
def PLATFORM_CLOCK : Nat := 24576000

/-- The objects of type `struct snd_soc_jack` the driver owns.  There is one:
`static struct snd_soc_jack headset_jack;`.  Its contents are written by the
ASoC core only, so the driver sees it as a reference. -/
inductive snd_soc_jack where
  | headset_jack
  deriving DecidableEq

/-- The fields of `struct snd_soc_jack_pin` the driver initialises. -/
structure snd_soc_jack_pin where
  pin : String
  mask : Int
  invert : Bool
  deriving DecidableEq

/-- The static `headset_jack_pin`. -/
def headset_jack_pin : snd_soc_jack_pin where
  pin := "Headphone"
  mask := 0xFFFFF
  invert := false

/-- The fields of `struct snd_soc_pcm_runtime` the driver reads. -/
structure snd_soc_pcm_runtime where
  cpu_dai : Handle
  codec_dai : Handle
  codec : Handle
  card : Handle
  deriving DecidableEq

/-- The part of `struct snd_pcm_substream` used: the driver reads `private_data` only. -/
structure snd_pcm_substream where
  private_data : snd_soc_pcm_runtime
  deriving DecidableEq

/-- The negotiated stream parameters the driver looks at: the rate is used for
the clock computation, width and format only appear in debug output. -/
structure snd_pcm_hw_params where
  rate : Nat
  width : Int
  format : Int
  deriving DecidableEq

/-- The accessor `params_rate(params)`, an `unsigned int`. -/
def params_rate (params : snd_pcm_hw_params) : Nat := params.rate

/-- Reduction of a natural number to a C `unsigned int` (32 bits). -/
def u32 (n : Nat) : Nat := n % 2 ^ 32

/-- The part of `struct device` used: identity and the device-tree node (`NULL` when the device
was not instantiated from the device tree). -/
structure device where
  id : Handle
  of_node : Option Handle
  deriving DecidableEq

/-- The part of `struct platform_device` used: the driver uses `pdev->dev` only. -/
structure platform_device where
  dev : device
  deriving DecidableEq

/-- The fields of `struct snd_soc_dai_link` that the static initialiser or
`probe` sets.  (`ops` and `init` are function pointers to the two callbacks
embedded below and are fixed.) -/
structure snd_soc_dai_link where
  name : String
  stream_name : String
  codec_dai_name : Option String
  dai_fmt : Nat
  codec_name : Option String
  codec_of_node : Option Handle
  cpu_dai_name : Option String
  cpu_of_node : Option Handle
  platform_name : Option String
  platform_of_node : Option Handle
  deriving DecidableEq

/-- One `struct snd_soc_dapm_route`: sink, control, source. -/
structure snd_soc_dapm_route where
  sink : String
  control : Option String
  source : String
  deriving DecidableEq

/-- The fields of `struct snd_soc_card` the driver sets.  The card has exactly
one DAI link (`num_links = ARRAY_SIZE(snd_rpi_aiy_voicebonnet_dai) = 1`). -/
structure snd_soc_card where
  name : String
  dev : Option device
  dai_link : snd_soc_dai_link
  dapm_routes : List snd_soc_dapm_route
  dapm_widgets : List String
  controls : List String
  fully_routed : Bool
  deriving DecidableEq

/-- The link `snd_rpi_aiy_voicebonnet_dai[0]` as statically initialised. -/
def snd_rpi_aiy_voicebonnet_dai (c : Consts) : snd_soc_dai_link where
  name := "rt5645"
  stream_name := "Google AIY Voice Bonnet SoundCard HiFi"
  codec_dai_name := some "rt5645-aif1"
  dai_fmt := c.SND_SOC_DAIFMT_I2S ||| c.SND_SOC_DAIFMT_NB_NF ||| c.SND_SOC_DAIFMT_CBS_CFS
  codec_name := none
  codec_of_node := none
  cpu_dai_name := none
  cpu_of_node := none
  platform_name := none
  platform_of_node := none

/-- The table `voicebonnet_widgets` (headphone, speaker, microphone). -/
def voicebonnet_widgets : List String := ["Headphone", "Speaker", "Int Mic"]

/-- The table `voicebonnet_audio_map` (sink, control, source). -/
def voicebonnet_audio_map : List snd_soc_dapm_route :=
  [ ⟨"micbias2", none, "Int Mic"⟩,
    ⟨"micbias2", none, "Int Mic"⟩,
    ⟨"IN1P", none, "micbias2"⟩,
    ⟨"IN2P", none, "micbias2"⟩,
    ⟨"Headphone", none, "HPOR"⟩,
    ⟨"Headphone", none, "HPOL"⟩,
    ⟨"Speaker", none, "SPOL"⟩,
    ⟨"Speaker", none, "SPOR"⟩ ]

/-- The table `voicebonnet_controls` (three pin switches). -/
def voicebonnet_controls : List String := ["Headphone", "Speaker", "Int Mic"]

/-- The card `static struct snd_soc_card snd_rpi_aiy_voicebonnet` as statically
initialised. -/
def snd_rpi_aiy_voicebonnet (c : Consts) : snd_soc_card where
  name := "snd_rpi_aiy_voicebonnet"
  dev := none
  dai_link := snd_rpi_aiy_voicebonnet_dai c
  dapm_routes := voicebonnet_audio_map
  dapm_widgets := voicebonnet_widgets
  controls := voicebonnet_controls
  fully_routed := true

/-! ## The external collaborators -/

/-- An external call that returns a C `int`, with its arguments. -/
inductive Call where
  | rt5645_sel_asrc_clk_src (codec : Handle) (filter_mask clk_src : Nat)
  | snd_soc_dai_set_sysclk (dai : Handle) (clk_id : Int) (freq : Nat) (dir : Int)
  | snd_soc_dai_set_pll (dai : Handle) (pll_id source : Int) (freq_in freq_out : Nat)
  | snd_soc_card_jack_new (card : Handle) (id : String) (type : Int)
      (jack : snd_soc_jack) (pins : snd_soc_jack_pin) (num_pins : Nat)
  | rt5645_set_jack_detect (codec : Handle)
      (hp_jack mic_jack btn_jack : Option snd_soc_jack)
  | snd_soc_of_parse_card_name (card : snd_soc_card) (propname : String)
  | devm_snd_soc_register_card (dev : device) (card : snd_soc_card)
  deriving DecidableEq

/-- One entry of the trace: an `int`-returning call with its result, or an
`of_parse_phandle` lookup with the node it produced (`none` for `NULL`). -/
inductive Event where
  | call (c : Call) (ret : Int)
  | of_parse_phandle (np : Handle) (phandle_name : String) (index : Int)
      (node : Option Handle)
  deriving DecidableEq

/-- The rest of the kernel, as far as the driver can observe it: each external
function is a deterministic transformer of the external state `σ`.  The two
functions that receive `&snd_rpi_aiy_voicebonnet` may modify the card and
therefore also return it. -/
structure Kernel (σ : Type) where
  rt5645_sel_asrc_clk_src : Handle → Nat → Nat → σ → Int × σ
  snd_soc_dai_set_sysclk : Handle → Int → Nat → Int → σ → Int × σ
  snd_soc_dai_set_pll : Handle → Int → Int → Nat → Nat → σ → Int × σ
  snd_soc_card_jack_new :
    Handle → String → Int → snd_soc_jack → snd_soc_jack_pin → Nat → σ → Int × σ
  rt5645_set_jack_detect :
    Handle → Option snd_soc_jack → Option snd_soc_jack → Option snd_soc_jack → σ → Int × σ
  of_parse_phandle : Handle → String → Int → σ → Option Handle × σ
  snd_soc_of_parse_card_name : snd_soc_card → String → σ → Int × snd_soc_card × σ
  devm_snd_soc_register_card : device → snd_soc_card → σ → Int × snd_soc_card × σ

/-- Everything a driver function can read or change: the external state, the
driver's static card object, the trace of external calls and the error log. -/
structure World (σ : Type) where
  ext : σ
  card : snd_soc_card
  trace : List Event
  dmesg : List (String × List Int)

variable {σ : Type}

/-- The macro `dev_err(dev, fmt, args...)`: append one line to the error log. -/
def dev_err (fmt : String) (args : List Int) (w : World σ) : World σ :=
  { w with dmesg := w.dmesg ++ [(fmt, args)] }

/-- Perform an `int`-returning external call that does not touch the card:
run the kernel's transformer and record the call and its result. -/
def invoke (f : σ → Int × σ) (c : Call) (w : World σ) : Int × World σ :=
  ((f w.ext).1, { w with ext := (f w.ext).2, trace := w.trace ++ [Event.call c (f w.ext).1] })

/-- Perform an `int`-returning external call that is handed the card object. -/
def invoke_card (f : snd_soc_card → σ → Int × snd_soc_card × σ)
    (c : snd_soc_card → Call) (w : World σ) : Int × World σ :=
  ((f w.card w.ext).1,
   { w with
      ext := (f w.card w.ext).2.2,
      card := (f w.card w.ext).2.1,
      trace := w.trace ++ [Event.call (c w.card) (f w.card w.ext).1] })

/-- The call `rt5645_sel_asrc_clk_src(codec, filter_mask, clk_src)`. -/
def rt5645_sel_asrc_clk_src (k : Kernel σ) (codec : Handle) (filter_mask clk_src : Nat)
    (w : World σ) : Int × World σ :=
  invoke (k.rt5645_sel_asrc_clk_src codec filter_mask clk_src)
    (Call.rt5645_sel_asrc_clk_src codec filter_mask clk_src) w

/-- The call `snd_soc_dai_set_sysclk(dai, clk_id, freq, dir)`. -/
def snd_soc_dai_set_sysclk (k : Kernel σ) (dai : Handle) (clk_id : Int) (freq : Nat)
    (dir : Int) (w : World σ) : Int × World σ :=
  invoke (k.snd_soc_dai_set_sysclk dai clk_id freq dir)
    (Call.snd_soc_dai_set_sysclk dai clk_id freq dir) w

/-- The call `snd_soc_dai_set_pll(dai, pll_id, source, freq_in, freq_out)`. -/
def snd_soc_dai_set_pll (k : Kernel σ) (dai : Handle) (pll_id source : Int)
    (freq_in freq_out : Nat) (w : World σ) : Int × World σ :=
  invoke (k.snd_soc_dai_set_pll dai pll_id source freq_in freq_out)
    (Call.snd_soc_dai_set_pll dai pll_id source freq_in freq_out) w

/-- The call `snd_soc_card_jack_new(card, id, type, jack, pins, num_pins)`. -/
def snd_soc_card_jack_new (k : Kernel σ) (card : Handle) (id : String) (type : Int)
    (jack : snd_soc_jack) (pins : snd_soc_jack_pin) (num_pins : Nat)
    (w : World σ) : Int × World σ :=
  invoke (k.snd_soc_card_jack_new card id type jack pins num_pins)
    (Call.snd_soc_card_jack_new card id type jack pins num_pins) w

/-- The call `rt5645_set_jack_detect(codec, hp_jack, mic_jack, btn_jack)`. -/
def rt5645_set_jack_detect (k : Kernel σ) (codec : Handle)
    (hp_jack mic_jack btn_jack : Option snd_soc_jack) (w : World σ) : Int × World σ :=
  invoke (k.rt5645_set_jack_detect codec hp_jack mic_jack btn_jack)
    (Call.rt5645_set_jack_detect codec hp_jack mic_jack btn_jack) w

/-- The call `of_parse_phandle(np, phandle_name, index)`; the result is a node
or `NULL`. -/
def of_parse_phandle (k : Kernel σ) (np : Handle) (phandle_name : String) (index : Int)
    (w : World σ) : Option Handle × World σ :=
  ((k.of_parse_phandle np phandle_name index w.ext).1,
   { w with
      ext := (k.of_parse_phandle np phandle_name index w.ext).2,
      trace := w.trace ++
        [Event.of_parse_phandle np phandle_name index
          (k.of_parse_phandle np phandle_name index w.ext).1] })

/-- The call `snd_soc_of_parse_card_name(&snd_rpi_aiy_voicebonnet, propname)`. -/
def snd_soc_of_parse_card_name (k : Kernel σ) (propname : String)
    (w : World σ) : Int × World σ :=
  invoke_card (fun card => k.snd_soc_of_parse_card_name card propname)
    (fun card => Call.snd_soc_of_parse_card_name card propname) w

/-- The call `devm_snd_soc_register_card(dev, &snd_rpi_aiy_voicebonnet)`. -/
def devm_snd_soc_register_card (k : Kernel σ) (dev : device)
    (w : World σ) : Int × World σ :=
  invoke_card (fun card => k.devm_snd_soc_register_card dev card)
    (fun card => Call.devm_snd_soc_register_card dev card) w

/-! ## The driver -/

/-- The callback `snd_rpi_aiy_voicebonnet_init`.  The result of the ASRC selection is
discarded; the result of the provisional `set_sysclk` is stored in `ret` and
overwritten by the jack allocation before it is read. -/
def snd_rpi_aiy_voicebonnet_init (c : Consts) (k : Kernel σ)
    (rtd : snd_soc_pcm_runtime) (w : World σ) : Int × World σ :=
  let codec_dai := rtd.codec_dai
  let card := rtd.card
  let w1 := (rt5645_sel_asrc_clk_src k rtd.codec
              (c.RT5645_DA_STEREO_FILTER ||| c.RT5645_AD_STEREO_FILTER |||
               c.RT5645_DA_MONO_L_FILTER ||| c.RT5645_DA_MONO_R_FILTER)
              c.RT5645_CLK_SEL_I2S1_ASRC w).2
  let r2 := snd_soc_dai_set_sysclk k codec_dai c.RT5645_SCLK_S_MCLK PLATFORM_CLOCK
              c.SND_SOC_CLOCK_IN w1
  let r3 := snd_soc_card_jack_new k card "Headphone Jack" c.SND_JACK_HEADPHONE
              snd_soc_jack.headset_jack headset_jack_pin 1 r2.2
  if r3.1 ≠ 0 then
    (r3.1, dev_err "Setting up headphone jack failed! %d\n" [r3.1] r3.2)
  else
    rt5645_set_jack_detect k rtd.codec (some snd_soc_jack.headset_jack) none none r3.2

/-- The callback `snd_rpi_aiy_voicebonnet_hw_params`.  `params_rate(params) * 512` is an
`unsigned int` product, hence reduced modulo `2 ^ 32`. -/
def snd_rpi_aiy_voicebonnet_hw_params (c : Consts) (k : Kernel σ)
    (substream : snd_pcm_substream) (params : snd_pcm_hw_params)
    (w : World σ) : Int × World σ :=
  let rtd := substream.private_data
  let codec_dai := rtd.codec_dai
  let r1 := snd_soc_dai_set_pll k codec_dai 0 c.RT5645_PLL1_S_MCLK PLATFORM_CLOCK
              (u32 (params_rate params * 512)) w
  if r1.1 < 0 then
    (r1.1, dev_err "can't set codec pll: %d\n" [r1.1] r1.2)
  else
    let r2 := snd_soc_dai_set_sysclk k codec_dai c.RT5645_SCLK_S_PLL1
                (u32 (params_rate params * 512)) c.SND_SOC_CLOCK_IN r1.2
    if r2.1 < 0 then
      (r2.1, dev_err "can't set codec sysclk: %d\n" [r2.1] r2.2)
    else
      let r3 := snd_soc_dai_set_sysclk k codec_dai c.RT5645_SCLK_S_PLL1
                  (u32 (params_rate params * 512)) c.SND_SOC_CLOCK_OUT r2.2
      if r3.1 < 0 then
        (r3.1, dev_err "can't set codec sysclk: %d\n" [r3.1] r3.2)
      else
        (r3.1, r3.2)

/-- The device-tree part of `probe` once the codec node has been resolved:
look up `"i2s-controller"` and, only if it resolves, point the CPU and
platform side of the link at it. -/
def probe_i2s (k : Kernel σ) (np : Handle) (w : World σ) : World σ :=
  let r := of_parse_phandle k np "i2s-controller" 0 w
  match r.1 with
  | some i2s_node =>
    { r.2 with
        card := { r.2.card with
          dai_link := { r.2.card.dai_link with
            cpu_dai_name := none
            cpu_of_node := some i2s_node
            platform_name := none
            platform_of_node := some i2s_node } } }
  | none => r.2

/-- The tail of `probe` after the device-tree block: parse the card name
(a failure is only logged), register the card and return the registration
result. -/
def probe_register (k : Kernel σ) (pdev : platform_device) (w : World σ) : Int × World σ :=
  let r := snd_soc_of_parse_card_name k "google,model" w
  let w1 := if r.1 ≠ 0 then dev_err "snd_soc_parse pailed: %d\n" [r.1] r.2 else r.2
  let r2 := devm_snd_soc_register_card k pdev.dev w1
  let w2 := if r2.1 ≠ 0 then dev_err "devm_snd_soc_register_card() failed: %d\n" [r2.1] r2.2
            else r2.2
  (r2.1, w2)

/-- The platform-driver entry point `snd_rpi_aiy_voicebonnet_probe`. -/
def snd_rpi_aiy_voicebonnet_probe (c : Consts) (k : Kernel σ)
    (pdev : platform_device) (w : World σ) : Int × World σ :=
  let w0 : World σ := { w with card := { w.card with dev := some pdev.dev } }
  match pdev.dev.of_node with
  | some np =>
    let w1 : World σ :=
      { w0 with card := { w0.card with dai_link := { w0.card.dai_link with codec_name := none } } }
    let r := of_parse_phandle k np "aiy-voicebonnet,audio-codec" 0 w1
    let w2 : World σ :=
      { r.2 with card := { r.2.card with dai_link := { r.2.card.dai_link with codec_of_node := r.1 } } }
    match r.1 with
    | none =>
      (- c.EINVAL, dev_err "Couldn't parse aiy-voicebonnet,audio-codec\n" [] w2)
    | some _ =>
      probe_register k pdev (probe_i2s k np w2)
  | none => probe_register k pdev w0

/-! ## Concrete collaborators used to evaluate the driver -/

/-- What a simple codec remembers: the arguments of the last PLL programming
(`pll_id`, `source`, `freq_in`, `freq_out`) and, for each direction, the
arguments of the last system-clock selection (`clk_id`, `freq`). -/
structure CodecState where
  pll : Option (Int × Int × Nat × Nat)
  sysclk : Int → Option (Int × Nat)

/-- A codec that has not been programmed yet. -/
def CodecState.reset : CodecState where
  pll := none
  sysclk := fun _ => none

/-- A kernel in which `set_pll` and `set_sysclk` record their arguments in the
codec state and succeed; every other call succeeds without effect, and no
device-tree reference resolves. -/
def recording_codec : Kernel CodecState where
  rt5645_sel_asrc_clk_src := fun _ _ _ s => (0, s)
  snd_soc_dai_set_sysclk := fun _ clk_id freq dir s =>
    (0, { s with sysclk := fun d => if d = dir then some (clk_id, freq) else s.sysclk d })
  snd_soc_dai_set_pll := fun _ pll_id source freq_in freq_out s =>
    (0, { s with pll := some (pll_id, source, freq_in, freq_out) })
  snd_soc_card_jack_new := fun _ _ _ _ _ _ s => (0, s)
  rt5645_set_jack_detect := fun _ _ _ _ s => (0, s)
  of_parse_phandle := fun _ _ _ s => (none, s)
  snd_soc_of_parse_card_name := fun card _ s => (0, card, s)
  devm_snd_soc_register_card := fun _ card s => (0, card, s)

/-- The recording codec with scripted results for the five codec and jack
calls: a call whose scripted result is negative (non-zero for the jack
allocation) has no effect on the codec state. -/
def scripted_codec (pll sysclk asrc jack_new jack_detect : Int) : Kernel CodecState :=
  { recording_codec with
    rt5645_sel_asrc_clk_src := fun _ _ _ s => (asrc, s)
    snd_soc_dai_set_sysclk := fun dai clk_id freq dir s =>
      if sysclk < 0 then (sysclk, s)
      else (sysclk, (recording_codec.snd_soc_dai_set_sysclk dai clk_id freq dir s).2)
    snd_soc_dai_set_pll := fun dai pll_id source freq_in freq_out s =>
      if pll < 0 then (pll, s)
      else (pll, (recording_codec.snd_soc_dai_set_pll dai pll_id source freq_in freq_out s).2)
    snd_soc_card_jack_new := fun _ _ _ _ _ _ s => (jack_new, s)
    rt5645_set_jack_detect := fun _ _ _ _ s => (jack_detect, s) }

/-- A kernel whose device tree resolves `"aiy-voicebonnet,audio-codec"` to
`codec` and `"i2s-controller"` to `i2s` (each possibly `NULL`), whose card-name
parsing returns `parse` and whose card registration returns `reg`. -/
def scripted_of (codec i2s : Option Handle) (parse reg : Int) : Kernel CodecState :=
  { recording_codec with
    of_parse_phandle := fun _ phandle_name _ s =>
      (if phandle_name = "aiy-voicebonnet,audio-codec" then codec
       else if phandle_name = "i2s-controller" then i2s else none, s)
    snd_soc_of_parse_card_name := fun card _ s => (parse, card, s)
    devm_snd_soc_register_card := fun _ card s => (reg, card, s) }

/-- A freshly loaded module: codec not programmed, card as statically
initialised, nothing called or logged yet. -/
def boot (c : Consts) : World CodecState where
  ext := CodecState.reset
  card := snd_rpi_aiy_voicebonnet c
  trace := []
  dmesg := []

/-- A runtime whose CPU DAI, codec DAI, codec and card are the objects 1, 2, 3
and 4. -/
def rtd0 : snd_soc_pcm_runtime where
  cpu_dai := 1
  codec_dai := 2
  codec := 3
  card := 4

/-- A substream of the runtime `rtd0`. -/
def substream0 : snd_pcm_substream where
  private_data := rtd0

/-- A platform device (object 7) instantiated from device-tree node 10. -/
def pdev0 : platform_device where
  dev := { id := 7, of_node := some 10 }

/-! ## Clock negotiation: `snd_rpi_aiy_voicebonnet_hw_params` -/

/-- Within the declared rate range the 32-bit product does not wrap. -/
theorem u32_rate_mul_512 (r : Nat) (h : r * 512 < 2 ^ 32) : u32 (r * 512) = r * 512 := by
  unfold u32
  exact Nat.mod_eq_of_lt h

/-- The outcome of `hw_params` when `set_pll` returns a negative code. -/
theorem hw_params_run_pll_neg (c : Consts) (k : Kernel σ) (substream : snd_pcm_substream)
    (params : snd_pcm_hw_params) (w : World σ) (e : Int) (s1 : σ)
    (hpll : k.snd_soc_dai_set_pll substream.private_data.codec_dai 0 c.RT5645_PLL1_S_MCLK
      PLATFORM_CLOCK (u32 (params_rate params * 512)) w.ext = (e, s1))
    (he : e < 0) :
    snd_rpi_aiy_voicebonnet_hw_params c k substream params w =
      (e, { w with
              ext := s1
              trace := w.trace ++
                [Event.call (Call.snd_soc_dai_set_pll substream.private_data.codec_dai 0
                  c.RT5645_PLL1_S_MCLK PLATFORM_CLOCK (u32 (params_rate params * 512))) e]
              dmesg := w.dmesg ++ [("can't set codec pll: %d\n", [e])] }) := by
  simp [snd_rpi_aiy_voicebonnet_hw_params, snd_soc_dai_set_pll, invoke, dev_err, hpll, he]

/-- The outcome of `hw_params` when `set_pll` succeeds and the input-direction
`set_sysclk` returns a negative code. -/
theorem hw_params_run_sysclk_in_neg (c : Consts) (k : Kernel σ) (substream : snd_pcm_substream)
    (params : snd_pcm_hw_params) (w : World σ) (r1 e : Int) (s1 s2 : σ)
    (hpll : k.snd_soc_dai_set_pll substream.private_data.codec_dai 0 c.RT5645_PLL1_S_MCLK
      PLATFORM_CLOCK (u32 (params_rate params * 512)) w.ext = (r1, s1))
    (h1 : 0 ≤ r1)
    (hin : k.snd_soc_dai_set_sysclk substream.private_data.codec_dai c.RT5645_SCLK_S_PLL1
      (u32 (params_rate params * 512)) c.SND_SOC_CLOCK_IN s1 = (e, s2))
    (he : e < 0) :
    snd_rpi_aiy_voicebonnet_hw_params c k substream params w =
      (e, { w with
              ext := s2
              trace := w.trace ++
                [Event.call (Call.snd_soc_dai_set_pll substream.private_data.codec_dai 0
                  c.RT5645_PLL1_S_MCLK PLATFORM_CLOCK (u32 (params_rate params * 512))) r1,
                 Event.call (Call.snd_soc_dai_set_sysclk substream.private_data.codec_dai
                  c.RT5645_SCLK_S_PLL1 (u32 (params_rate params * 512)) c.SND_SOC_CLOCK_IN) e]
              dmesg := w.dmesg ++ [("can't set codec sysclk: %d\n", [e])] }) := by
  simp [snd_rpi_aiy_voicebonnet_hw_params, snd_soc_dai_set_pll, snd_soc_dai_set_sysclk,
    invoke, dev_err, hpll, hin, he, not_lt.mpr h1]

/-- The outcome of `hw_params` when `set_pll` and the input-direction
`set_sysclk` succeed: the output-direction `set_sysclk` is issued and its
result is returned, with an error line exactly when it is negative. -/
theorem hw_params_run_sysclk_out (c : Consts) (k : Kernel σ) (substream : snd_pcm_substream)
    (params : snd_pcm_hw_params) (w : World σ) (r1 r2 r3 : Int) (s1 s2 s3 : σ)
    (hpll : k.snd_soc_dai_set_pll substream.private_data.codec_dai 0 c.RT5645_PLL1_S_MCLK
      PLATFORM_CLOCK (u32 (params_rate params * 512)) w.ext = (r1, s1))
    (h1 : 0 ≤ r1)
    (hin : k.snd_soc_dai_set_sysclk substream.private_data.codec_dai c.RT5645_SCLK_S_PLL1
      (u32 (params_rate params * 512)) c.SND_SOC_CLOCK_IN s1 = (r2, s2))
    (h2 : 0 ≤ r2)
    (hout : k.snd_soc_dai_set_sysclk substream.private_data.codec_dai c.RT5645_SCLK_S_PLL1
      (u32 (params_rate params * 512)) c.SND_SOC_CLOCK_OUT s2 = (r3, s3)) :
    snd_rpi_aiy_voicebonnet_hw_params c k substream params w =
      (r3, { w with
              ext := s3
              trace := w.trace ++
                [Event.call (Call.snd_soc_dai_set_pll substream.private_data.codec_dai 0
                  c.RT5645_PLL1_S_MCLK PLATFORM_CLOCK (u32 (params_rate params * 512))) r1,
                 Event.call (Call.snd_soc_dai_set_sysclk substream.private_data.codec_dai
                  c.RT5645_SCLK_S_PLL1 (u32 (params_rate params * 512)) c.SND_SOC_CLOCK_IN) r2,
                 Event.call (Call.snd_soc_dai_set_sysclk substream.private_data.codec_dai
                  c.RT5645_SCLK_S_PLL1 (u32 (params_rate params * 512)) c.SND_SOC_CLOCK_OUT) r3]
              dmesg := if r3 < 0 then w.dmesg ++ [("can't set codec sysclk: %d\n", [r3])]
                       else w.dmesg }) := by
  by_cases h3 : r3 < 0 <;>
  simp [snd_rpi_aiy_voicebonnet_hw_params, snd_soc_dai_set_pll, snd_soc_dai_set_sysclk,
    invoke, dev_err, hpll, hin, hout, h3, not_lt.mpr h1, not_lt.mpr h2]

/-- Every run of `hw_params` has one of three shapes: `set_pll` failed and
nothing else was called; `set_pll` succeeded, the input-direction `set_sysclk`
failed and nothing else was called; or all three calls were made and the
result of the last one is returned. -/
theorem hw_params_shapes (c : Consts) (k : Kernel σ) (substream : snd_pcm_substream)
    (params : snd_pcm_hw_params) (w : World σ) :
    ∃ r1 r2 r3 : Int,
      r1 = (k.snd_soc_dai_set_pll substream.private_data.codec_dai 0 c.RT5645_PLL1_S_MCLK
              PLATFORM_CLOCK (u32 (params_rate params * 512)) w.ext).1 ∧
      ((r1 < 0 ∧ (snd_rpi_aiy_voicebonnet_hw_params c k substream params w).1 = r1 ∧
        (snd_rpi_aiy_voicebonnet_hw_params c k substream params w).2.trace = w.trace ++
          [Event.call (Call.snd_soc_dai_set_pll substream.private_data.codec_dai 0
            c.RT5645_PLL1_S_MCLK PLATFORM_CLOCK (u32 (params_rate params * 512))) r1]) ∨
       (0 ≤ r1 ∧ r2 < 0 ∧ (snd_rpi_aiy_voicebonnet_hw_params c k substream params w).1 = r2 ∧
        (snd_rpi_aiy_voicebonnet_hw_params c k substream params w).2.trace = w.trace ++
          [Event.call (Call.snd_soc_dai_set_pll substream.private_data.codec_dai 0
            c.RT5645_PLL1_S_MCLK PLATFORM_CLOCK (u32 (params_rate params * 512))) r1,
           Event.call (Call.snd_soc_dai_set_sysclk substream.private_data.codec_dai
            c.RT5645_SCLK_S_PLL1 (u32 (params_rate params * 512)) c.SND_SOC_CLOCK_IN) r2]) ∨
       (0 ≤ r1 ∧ 0 ≤ r2 ∧ (snd_rpi_aiy_voicebonnet_hw_params c k substream params w).1 = r3 ∧
        (snd_rpi_aiy_voicebonnet_hw_params c k substream params w).2.trace = w.trace ++
          [Event.call (Call.snd_soc_dai_set_pll substream.private_data.codec_dai 0
            c.RT5645_PLL1_S_MCLK PLATFORM_CLOCK (u32 (params_rate params * 512))) r1,
           Event.call (Call.snd_soc_dai_set_sysclk substream.private_data.codec_dai
            c.RT5645_SCLK_S_PLL1 (u32 (params_rate params * 512)) c.SND_SOC_CLOCK_IN) r2,
           Event.call (Call.snd_soc_dai_set_sysclk substream.private_data.codec_dai
            c.RT5645_SCLK_S_PLL1 (u32 (params_rate params * 512)) c.SND_SOC_CLOCK_OUT) r3])) := by
  rcases hpll : k.snd_soc_dai_set_pll substream.private_data.codec_dai 0 c.RT5645_PLL1_S_MCLK
      PLATFORM_CLOCK (u32 (params_rate params * 512)) w.ext with ⟨r1, s1⟩
  by_cases h1 : r1 < 0
  · exact ⟨r1, 0, 0, rfl, Or.inl ⟨h1, by
      rw [hw_params_run_pll_neg c k substream params w r1 s1 hpll h1], by
      rw [hw_params_run_pll_neg c k substream params w r1 s1 hpll h1]⟩⟩
  · have h1 : 0 ≤ r1 := not_lt.mp h1
    rcases hin : k.snd_soc_dai_set_sysclk substream.private_data.codec_dai c.RT5645_SCLK_S_PLL1
        (u32 (params_rate params * 512)) c.SND_SOC_CLOCK_IN s1 with ⟨r2, s2⟩
    by_cases h2 : r2 < 0
    · exact ⟨r1, r2, 0, rfl, Or.inr (Or.inl ⟨h1, h2, by
        rw [hw_params_run_sysclk_in_neg c k substream params w r1 r2 s1 s2 hpll h1 hin h2], by
        rw [hw_params_run_sysclk_in_neg c k substream params w r1 r2 s1 s2 hpll h1 hin h2]⟩)⟩
    · have h2 : 0 ≤ r2 := not_lt.mp h2
      rcases hout : k.snd_soc_dai_set_sysclk substream.private_data.codec_dai
          c.RT5645_SCLK_S_PLL1 (u32 (params_rate params * 512)) c.SND_SOC_CLOCK_OUT s2
        with ⟨r3, s3⟩
      exact ⟨r1, r2, r3, rfl, Or.inr (Or.inr ⟨h1, h2, by
        rw [hw_params_run_sysclk_out c k substream params w r1 r2 r3 s1 s2 s3 hpll h1 hin h2 hout],
        by
        rw [hw_params_run_sysclk_out c k substream params w r1 r2 r3 s1 s2 s3 hpll h1 hin h2 hout]⟩)⟩

/-- C2: if `set_pll` returns a negative code `e`, `hw_params` returns `e`, the
only call it has issued is that `set_pll` (no `set_sysclk` at all), the external
state is exactly what `set_pll` left behind, and therefore anything `set_pll`
itself does not touch, such as the selected system clock, is what it was before
the call.  In every run, a `set_sysclk` naming `RT5645_SCLK_S_PLL1` appears only
behind a `set_pll` of the same run that returned a non-negative result. -/
theorem hw_params_pll_failure_aborts (c : Consts) (k : Kernel σ)
    (substream : snd_pcm_substream) (params : snd_pcm_hw_params) (w : World σ) :
    (∀ (e : Int) (s1 : σ),
      k.snd_soc_dai_set_pll substream.private_data.codec_dai 0 c.RT5645_PLL1_S_MCLK
        PLATFORM_CLOCK (u32 (params_rate params * 512)) w.ext = (e, s1) →
      e < 0 →
      (snd_rpi_aiy_voicebonnet_hw_params c k substream params w).1 = e ∧
      (snd_rpi_aiy_voicebonnet_hw_params c k substream params w).2.trace = w.trace ++
        [Event.call (Call.snd_soc_dai_set_pll substream.private_data.codec_dai 0
          c.RT5645_PLL1_S_MCLK PLATFORM_CLOCK (u32 (params_rate params * 512))) e] ∧
      (snd_rpi_aiy_voicebonnet_hw_params c k substream params w).2.ext = s1 ∧
      (∀ (α : Type) (sysclk : σ → α),
        (∀ dai pll_id source freq_in freq_out s,
          sysclk (k.snd_soc_dai_set_pll dai pll_id source freq_in freq_out s).2 = sysclk s) →
        sysclk (snd_rpi_aiy_voicebonnet_hw_params c k substream params w).2.ext
          = sysclk w.ext)) ∧
    (∀ (evs : List Event) (dai : Handle) (freq : Nat) (dir ret : Int),
      (snd_rpi_aiy_voicebonnet_hw_params c k substream params w).2.trace = w.trace ++ evs →
      Event.call (Call.snd_soc_dai_set_sysclk dai c.RT5645_SCLK_S_PLL1 freq dir) ret ∈ evs →
      ∃ (r1 : Int) (rest : List Event),
        evs = Event.call (Call.snd_soc_dai_set_pll substream.private_data.codec_dai 0
          c.RT5645_PLL1_S_MCLK PLATFORM_CLOCK (u32 (params_rate params * 512))) r1 :: rest ∧
        0 ≤ r1 ∧
        Event.call (Call.snd_soc_dai_set_sysclk dai c.RT5645_SCLK_S_PLL1 freq dir) ret
          ∈ rest) := by
  constructor
  · intro e s1 hpll he
    rw [hw_params_run_pll_neg c k substream params w e s1 hpll he]
    refine ⟨rfl, rfl, rfl, ?_⟩
    intro α sysclk hframe
    have h := hframe substream.private_data.codec_dai 0 c.RT5645_PLL1_S_MCLK
      PLATFORM_CLOCK (u32 (params_rate params * 512)) w.ext
    rw [hpll] at h
    exact h
  · intro evs dai freq dir ret htrace hmem
    obtain ⟨r1, r2, r3, -, h | h | h⟩ := hw_params_shapes c k substream params w
    · rw [h.2.2] at htrace
      have hevs := List.append_cancel_left htrace
      subst hevs
      simp at hmem
    · rw [h.2.2.2] at htrace
      have hevs := List.append_cancel_left htrace
      subst hevs
      refine ⟨r1, _, rfl, h.1, ?_⟩
      simpa using hmem
    · rw [h.2.2.2] at htrace
      have hevs := List.append_cancel_left htrace
      subst hevs
      refine ⟨r1, _, rfl, h.1, ?_⟩
      simpa using hmem

/-- C2 at rate 44100 with a `set_pll` that fails with -22: `hw_params` returns
-22 and the codec's system-clock selection is untouched. -/
theorem hw_params_pll_failure_aborts_witness :
    ((scripted_codec (-22) 0 0 0 0).snd_soc_dai_set_pll substream0.private_data.codec_dai 0
        linux.RT5645_PLL1_S_MCLK PLATFORM_CLOCK (u32 (params_rate ⟨44100, 16, 2⟩ * 512))
        (boot linux).ext = (-22, CodecState.reset) ∧ (-22 : Int) < 0) ∧
    (snd_rpi_aiy_voicebonnet_hw_params linux (scripted_codec (-22) 0 0 0 0) substream0
        ⟨44100, 16, 2⟩ (boot linux)).1 = -22 ∧
    (snd_rpi_aiy_voicebonnet_hw_params linux (scripted_codec (-22) 0 0 0 0) substream0
        ⟨44100, 16, 2⟩ (boot linux)).2.ext.sysclk = (boot linux).ext.sysclk :=
  ⟨⟨rfl, by decide⟩,
   ((hw_params_pll_failure_aborts linux (scripted_codec (-22) 0 0 0 0) substream0
      ⟨44100, 16, 2⟩ (boot linux)).1 (-22) CodecState.reset rfl (by decide)).1,
   ((hw_params_pll_failure_aborts linux (scripted_codec (-22) 0 0 0 0) substream0
      ⟨44100, 16, 2⟩ (boot linux)).1 (-22) CodecState.reset rfl (by decide)).2.2.2
      _ CodecState.sysclk (fun _ _ _ _ _ _ => rfl)⟩

/-- C3: when `set_pll` and both `set_sysclk` calls return non-negative results,
`hw_params` issues exactly three calls, in this order: `set_pll` (pll id 0,
source `RT5645_PLL1_S_MCLK`, 24576000 in, `r * 512` out), `set_sysclk` (source
`RT5645_SCLK_S_PLL1`, `r * 512`, `SND_SOC_CLOCK_IN`) and `set_sysclk` (source
`RT5645_SCLK_S_PLL1`, `r * 512`, `SND_SOC_CLOCK_OUT`), all on the codec DAI and
all with the same frequency; it returns the result of the last call, logs
nothing and leaves the card untouched.  The frequency is the `unsigned int`
product of the source, which is the mathematical `r * 512` whenever that is
below `2 ^ 32`. -/
theorem hw_params_success_sequence (c : Consts) (k : Kernel σ)
    (substream : snd_pcm_substream) (params : snd_pcm_hw_params) (w : World σ)
    (r1 r2 r3 : Int) (s1 s2 s3 : σ)
    (hpll : k.snd_soc_dai_set_pll substream.private_data.codec_dai 0 c.RT5645_PLL1_S_MCLK
      PLATFORM_CLOCK (u32 (params_rate params * 512)) w.ext = (r1, s1))
    (h1 : 0 ≤ r1)
    (hin : k.snd_soc_dai_set_sysclk substream.private_data.codec_dai c.RT5645_SCLK_S_PLL1
      (u32 (params_rate params * 512)) c.SND_SOC_CLOCK_IN s1 = (r2, s2))
    (h2 : 0 ≤ r2)
    (hout : k.snd_soc_dai_set_sysclk substream.private_data.codec_dai c.RT5645_SCLK_S_PLL1
      (u32 (params_rate params * 512)) c.SND_SOC_CLOCK_OUT s2 = (r3, s3))
    (h3 : 0 ≤ r3) :
    snd_rpi_aiy_voicebonnet_hw_params c k substream params w =
      (r3, { ext := s3
             card := w.card
             trace := w.trace ++
               [Event.call (Call.snd_soc_dai_set_pll substream.private_data.codec_dai 0
                  c.RT5645_PLL1_S_MCLK 24576000 (u32 (params_rate params * 512))) r1,
                Event.call (Call.snd_soc_dai_set_sysclk substream.private_data.codec_dai
                  c.RT5645_SCLK_S_PLL1 (u32 (params_rate params * 512)) c.SND_SOC_CLOCK_IN) r2,
                Event.call (Call.snd_soc_dai_set_sysclk substream.private_data.codec_dai
                  c.RT5645_SCLK_S_PLL1 (u32 (params_rate params * 512)) c.SND_SOC_CLOCK_OUT) r3]
             dmesg := w.dmesg }) ∧
    (params_rate params * 512 < 2 ^ 32 →
      u32 (params_rate params * 512) = params_rate params * 512) := by
  refine ⟨?_, u32_rate_mul_512 _⟩
  rw [hw_params_run_sysclk_out c k substream params w r1 r2 r3 s1 s2 s3 hpll h1 hin h2 hout,
    if_neg (not_lt.mpr h3)]
  rfl

/-- C3 at rate 48000 on the recording codec: three calls, all at 24576000. -/
theorem hw_params_success_sequence_witness :
    (recording_codec.snd_soc_dai_set_pll 2 0 0 24576000 24576000 CodecState.reset
        = (0, ⟨some (0, 0, 24576000, 24576000), fun _ => none⟩) ∧ (0 : Int) ≤ 0) ∧
    (snd_rpi_aiy_voicebonnet_hw_params linux recording_codec substream0 ⟨48000, 16, 2⟩
        (boot linux)).1 = 0 ∧
    (snd_rpi_aiy_voicebonnet_hw_params linux recording_codec substream0 ⟨48000, 16, 2⟩
        (boot linux)).2.trace =
      [Event.call (Call.snd_soc_dai_set_pll 2 0 0 24576000 24576000) 0,
       Event.call (Call.snd_soc_dai_set_sysclk 2 1 24576000 0) 0,
       Event.call (Call.snd_soc_dai_set_sysclk 2 1 24576000 1) 0] :=
  ⟨⟨rfl, le_refl 0⟩,
   congrArg Prod.fst
     (hw_params_success_sequence linux recording_codec substream0 ⟨48000, 16, 2⟩ (boot linux)
       0 0 0 _ _ _ rfl (le_refl 0) rfl (le_refl 0) rfl (le_refl 0)).1,
   congrArg (fun o => o.2.trace)
     (hw_params_success_sequence linux recording_codec substream0 ⟨48000, 16, 2⟩ (boot linux)
       0 0 0 _ _ _ rfl (le_refl 0) rfl (le_refl 0) rfl (le_refl 0)).1⟩

/-- C4: after a successful `set_pll`, a negative result `e` of the
input-direction `set_sysclk` is returned as is and the output-direction call is
not issued; after a successful input-direction call, a negative result `e` of
the output-direction `set_sysclk` is returned as is.  In every run the calls
issued form an initial segment of the fixed plan `set_pll`, `set_sysclk` (in),
`set_sysclk` (out), so each step is issued at most once and nothing else is
called, and the return value is negative exactly when one of the issued calls
returned a negative value. -/
theorem hw_params_failure_codes (c : Consts) (k : Kernel σ)
    (substream : snd_pcm_substream) (params : snd_pcm_hw_params) (w : World σ) :
    (∀ (r1 e : Int) (s1 s2 : σ),
      k.snd_soc_dai_set_pll substream.private_data.codec_dai 0 c.RT5645_PLL1_S_MCLK
        PLATFORM_CLOCK (u32 (params_rate params * 512)) w.ext = (r1, s1) → 0 ≤ r1 →
      k.snd_soc_dai_set_sysclk substream.private_data.codec_dai c.RT5645_SCLK_S_PLL1
        (u32 (params_rate params * 512)) c.SND_SOC_CLOCK_IN s1 = (e, s2) → e < 0 →
      (snd_rpi_aiy_voicebonnet_hw_params c k substream params w).1 = e ∧
      (snd_rpi_aiy_voicebonnet_hw_params c k substream params w).2.trace = w.trace ++
        [Event.call (Call.snd_soc_dai_set_pll substream.private_data.codec_dai 0
          c.RT5645_PLL1_S_MCLK PLATFORM_CLOCK (u32 (params_rate params * 512))) r1,
         Event.call (Call.snd_soc_dai_set_sysclk substream.private_data.codec_dai
          c.RT5645_SCLK_S_PLL1 (u32 (params_rate params * 512)) c.SND_SOC_CLOCK_IN) e]) ∧
    (∀ (r1 r2 e : Int) (s1 s2 s3 : σ),
      k.snd_soc_dai_set_pll substream.private_data.codec_dai 0 c.RT5645_PLL1_S_MCLK
        PLATFORM_CLOCK (u32 (params_rate params * 512)) w.ext = (r1, s1) → 0 ≤ r1 →
      k.snd_soc_dai_set_sysclk substream.private_data.codec_dai c.RT5645_SCLK_S_PLL1
        (u32 (params_rate params * 512)) c.SND_SOC_CLOCK_IN s1 = (r2, s2) → 0 ≤ r2 →
      k.snd_soc_dai_set_sysclk substream.private_data.codec_dai c.RT5645_SCLK_S_PLL1
        (u32 (params_rate params * 512)) c.SND_SOC_CLOCK_OUT s2 = (e, s3) → e < 0 →
      (snd_rpi_aiy_voicebonnet_hw_params c k substream params w).1 = e) ∧
    (∃ (evs : List Event) (r1 r2 r3 : Int),
      (snd_rpi_aiy_voicebonnet_hw_params c k substream params w).2.trace = w.trace ++ evs ∧
      evs <+: [Event.call (Call.snd_soc_dai_set_pll substream.private_data.codec_dai 0
                c.RT5645_PLL1_S_MCLK PLATFORM_CLOCK (u32 (params_rate params * 512))) r1,
               Event.call (Call.snd_soc_dai_set_sysclk substream.private_data.codec_dai
                c.RT5645_SCLK_S_PLL1 (u32 (params_rate params * 512)) c.SND_SOC_CLOCK_IN) r2,
               Event.call (Call.snd_soc_dai_set_sysclk substream.private_data.codec_dai
                c.RT5645_SCLK_S_PLL1 (u32 (params_rate params * 512)) c.SND_SOC_CLOCK_OUT) r3] ∧
      ((snd_rpi_aiy_voicebonnet_hw_params c k substream params w).1 < 0 ↔
        ∃ (op : Call) (ret : Int), Event.call op ret ∈ evs ∧ ret < 0)) := by
  refine ⟨?_, ?_, ?_⟩
  · intro r1 e s1 s2 hpll h1 hin he
    rw [hw_params_run_sysclk_in_neg c k substream params w r1 e s1 s2 hpll h1 hin he]
    exact ⟨rfl, rfl⟩
  · intro r1 r2 e s1 s2 s3 hpll h1 hin h2 hout _
    rw [hw_params_run_sysclk_out c k substream params w r1 r2 e s1 s2 s3 hpll h1 hin h2 hout]
  · obtain ⟨r1, r2, r3, -, h | h | h⟩ := hw_params_shapes c k substream params w
    · refine ⟨_, r1, r2, r3, h.2.2, ⟨[_, _], rfl⟩, ?_⟩
      rw [h.2.1]
      constructor
      · intro hneg
        exact ⟨_, r1, List.mem_singleton.mpr rfl, hneg⟩
      · intro _
        exact h.1
    · refine ⟨_, r1, r2, r3, h.2.2.2, ⟨[_], rfl⟩, ?_⟩
      rw [h.2.2.1]
      constructor
      · intro hneg
        exact ⟨_, r2, List.mem_cons_of_mem _ (List.mem_singleton.mpr rfl), hneg⟩
      · intro _
        exact h.2.1
    · refine ⟨_, r1, r2, r3, h.2.2.2, ⟨[], rfl⟩, ?_⟩
      rw [h.2.2.1]
      constructor
      · intro hneg
        exact ⟨_, r3, List.mem_cons_of_mem _ (List.mem_cons_of_mem _ (List.mem_singleton.mpr rfl)), hneg⟩
      · rintro ⟨op, ret, hmem, hneg⟩
        simp only [List.mem_cons, List.mem_singleton, Event.call.injEq, List.mem_nil_iff,
          or_false] at hmem
        rcases hmem with ⟨-, rfl⟩ | ⟨-, rfl⟩ | ⟨-, rfl⟩
        · omega
        · omega
        · exact hneg

/-- C4 on a codec whose `set_sysclk` fails with -5 after a successful
`set_pll`: `hw_params` returns -5 and stops after the second call. -/
theorem hw_params_failure_codes_witness :
    ((scripted_codec 0 (-5) 0 0 0).snd_soc_dai_set_pll substream0.private_data.codec_dai 0
        linux.RT5645_PLL1_S_MCLK PLATFORM_CLOCK (u32 (params_rate ⟨44100, 16, 2⟩ * 512))
        (boot linux).ext = (0, ⟨some (0, 0, 24576000, 22579200), fun _ => none⟩) ∧
     (0 : Int) ≤ 0 ∧
     (scripted_codec 0 (-5) 0 0 0).snd_soc_dai_set_sysclk substream0.private_data.codec_dai
        linux.RT5645_SCLK_S_PLL1 (u32 (params_rate ⟨44100, 16, 2⟩ * 512))
        linux.SND_SOC_CLOCK_IN ⟨some (0, 0, 24576000, 22579200), fun _ => none⟩
        = (-5, ⟨some (0, 0, 24576000, 22579200), fun _ => none⟩) ∧
     (-5 : Int) < 0) ∧
    (snd_rpi_aiy_voicebonnet_hw_params linux (scripted_codec 0 (-5) 0 0 0) substream0
        ⟨44100, 16, 2⟩ (boot linux)).1 = -5 ∧
    (snd_rpi_aiy_voicebonnet_hw_params linux (scripted_codec 0 (-5) 0 0 0) substream0
        ⟨44100, 16, 2⟩ (boot linux)).2.trace =
      (boot linux).trace ++
      [Event.call (Call.snd_soc_dai_set_pll 2 0 0 24576000 22579200) 0,
       Event.call (Call.snd_soc_dai_set_sysclk 2 1 22579200 0) (-5)] :=
  ⟨⟨rfl, le_refl 0, rfl, by decide⟩,
   (hw_params_failure_codes linux (scripted_codec 0 (-5) 0 0 0) substream0
      ⟨44100, 16, 2⟩ (boot linux)).1 0 (-5) _ _ rfl (le_refl 0) rfl (by decide)⟩

/-! ## Link initialisation: `snd_rpi_aiy_voicebonnet_init` -/

/-- The outcome of `init` when the jack allocation returns a non-zero code. -/
theorem init_run_jack_nonzero (c : Consts) (k : Kernel σ) (rtd : snd_soc_pcm_runtime)
    (w : World σ) (r1 r2 e : Int) (s1 s2 s3 : σ)
    (hasrc : k.rt5645_sel_asrc_clk_src rtd.codec
      (c.RT5645_DA_STEREO_FILTER ||| c.RT5645_AD_STEREO_FILTER |||
       c.RT5645_DA_MONO_L_FILTER ||| c.RT5645_DA_MONO_R_FILTER)
      c.RT5645_CLK_SEL_I2S1_ASRC w.ext = (r1, s1))
    (hclk : k.snd_soc_dai_set_sysclk rtd.codec_dai c.RT5645_SCLK_S_MCLK PLATFORM_CLOCK
      c.SND_SOC_CLOCK_IN s1 = (r2, s2))
    (hjack : k.snd_soc_card_jack_new rtd.card "Headphone Jack" c.SND_JACK_HEADPHONE
      snd_soc_jack.headset_jack headset_jack_pin 1 s2 = (e, s3))
    (he : e ≠ 0) :
    snd_rpi_aiy_voicebonnet_init c k rtd w =
      (e, { ext := s3,
            card := w.card,
            trace := w.trace ++
               [Event.call (Call.rt5645_sel_asrc_clk_src rtd.codec
                  (c.RT5645_DA_STEREO_FILTER ||| c.RT5645_AD_STEREO_FILTER |||
                   c.RT5645_DA_MONO_L_FILTER ||| c.RT5645_DA_MONO_R_FILTER)
                  c.RT5645_CLK_SEL_I2S1_ASRC) r1,
                Event.call (Call.snd_soc_dai_set_sysclk rtd.codec_dai c.RT5645_SCLK_S_MCLK
                  PLATFORM_CLOCK c.SND_SOC_CLOCK_IN) r2,
                Event.call (Call.snd_soc_card_jack_new rtd.card "Headphone Jack"
                  c.SND_JACK_HEADPHONE snd_soc_jack.headset_jack headset_jack_pin 1) e],
            dmesg := w.dmesg ++ [("Setting up headphone jack failed! %d\n", [e])] }) := by
  simp [snd_rpi_aiy_voicebonnet_init, rt5645_sel_asrc_clk_src, snd_soc_dai_set_sysclk,
    snd_soc_card_jack_new, invoke, dev_err, hasrc, hclk, hjack, he]

/-- The outcome of `init` when the jack allocation returns 0. -/
theorem init_run_jack_zero (c : Consts) (k : Kernel σ) (rtd : snd_soc_pcm_runtime)
    (w : World σ) (r1 r2 r4 : Int) (s1 s2 s3 s4 : σ)
    (hasrc : k.rt5645_sel_asrc_clk_src rtd.codec
      (c.RT5645_DA_STEREO_FILTER ||| c.RT5645_AD_STEREO_FILTER |||
       c.RT5645_DA_MONO_L_FILTER ||| c.RT5645_DA_MONO_R_FILTER)
      c.RT5645_CLK_SEL_I2S1_ASRC w.ext = (r1, s1))
    (hclk : k.snd_soc_dai_set_sysclk rtd.codec_dai c.RT5645_SCLK_S_MCLK PLATFORM_CLOCK
      c.SND_SOC_CLOCK_IN s1 = (r2, s2))
    (hjack : k.snd_soc_card_jack_new rtd.card "Headphone Jack" c.SND_JACK_HEADPHONE
      snd_soc_jack.headset_jack headset_jack_pin 1 s2 = (0, s3))
    (hdet : k.rt5645_set_jack_detect rtd.codec (some snd_soc_jack.headset_jack) none none s3
      = (r4, s4)) :
    snd_rpi_aiy_voicebonnet_init c k rtd w =
      (r4, { ext := s4,
             card := w.card,
             trace := w.trace ++
               [Event.call (Call.rt5645_sel_asrc_clk_src rtd.codec
                  (c.RT5645_DA_STEREO_FILTER ||| c.RT5645_AD_STEREO_FILTER |||
                   c.RT5645_DA_MONO_L_FILTER ||| c.RT5645_DA_MONO_R_FILTER)
                  c.RT5645_CLK_SEL_I2S1_ASRC) r1,
                Event.call (Call.snd_soc_dai_set_sysclk rtd.codec_dai c.RT5645_SCLK_S_MCLK
                  PLATFORM_CLOCK c.SND_SOC_CLOCK_IN) r2,
                Event.call (Call.snd_soc_card_jack_new rtd.card "Headphone Jack"
                  c.SND_JACK_HEADPHONE snd_soc_jack.headset_jack headset_jack_pin 1) 0,
                Event.call (Call.rt5645_set_jack_detect rtd.codec
                  (some snd_soc_jack.headset_jack) none none) r4],
             dmesg := w.dmesg }) := by
  simp [snd_rpi_aiy_voicebonnet_init, rt5645_sel_asrc_clk_src, snd_soc_dai_set_sysclk,
    snd_soc_card_jack_new, rt5645_set_jack_detect, invoke, hasrc, hclk, hjack, hdet]

/-- Every run of `init` has one of two shapes: the jack allocation failed and
its code is returned after three calls, or it returned 0 and the result of the
jack-detect wiring is returned after four calls. -/
theorem init_shapes (c : Consts) (k : Kernel σ) (rtd : snd_soc_pcm_runtime) (w : World σ) :
    ∃ r1 r2 r3 r4 : Int,
      (r3 ≠ 0 ∧ (snd_rpi_aiy_voicebonnet_init c k rtd w).1 = r3 ∧
        (snd_rpi_aiy_voicebonnet_init c k rtd w).2.trace = w.trace ++
               [Event.call (Call.rt5645_sel_asrc_clk_src rtd.codec
                  (c.RT5645_DA_STEREO_FILTER ||| c.RT5645_AD_STEREO_FILTER |||
                   c.RT5645_DA_MONO_L_FILTER ||| c.RT5645_DA_MONO_R_FILTER)
                  c.RT5645_CLK_SEL_I2S1_ASRC) r1,
                Event.call (Call.snd_soc_dai_set_sysclk rtd.codec_dai c.RT5645_SCLK_S_MCLK
                  PLATFORM_CLOCK c.SND_SOC_CLOCK_IN) r2,
                Event.call (Call.snd_soc_card_jack_new rtd.card "Headphone Jack"
                  c.SND_JACK_HEADPHONE snd_soc_jack.headset_jack headset_jack_pin 1) r3]) ∨
      (r3 = 0 ∧ (snd_rpi_aiy_voicebonnet_init c k rtd w).1 = r4 ∧
        (snd_rpi_aiy_voicebonnet_init c k rtd w).2.trace = w.trace ++
               [Event.call (Call.rt5645_sel_asrc_clk_src rtd.codec
                  (c.RT5645_DA_STEREO_FILTER ||| c.RT5645_AD_STEREO_FILTER |||
                   c.RT5645_DA_MONO_L_FILTER ||| c.RT5645_DA_MONO_R_FILTER)
                  c.RT5645_CLK_SEL_I2S1_ASRC) r1,
                Event.call (Call.snd_soc_dai_set_sysclk rtd.codec_dai c.RT5645_SCLK_S_MCLK
                  PLATFORM_CLOCK c.SND_SOC_CLOCK_IN) r2,
                Event.call (Call.snd_soc_card_jack_new rtd.card "Headphone Jack"
                  c.SND_JACK_HEADPHONE snd_soc_jack.headset_jack headset_jack_pin 1) 0,
                Event.call (Call.rt5645_set_jack_detect rtd.codec
                  (some snd_soc_jack.headset_jack) none none) r4]) := by
  rcases hasrc : k.rt5645_sel_asrc_clk_src rtd.codec
      (c.RT5645_DA_STEREO_FILTER ||| c.RT5645_AD_STEREO_FILTER |||
       c.RT5645_DA_MONO_L_FILTER ||| c.RT5645_DA_MONO_R_FILTER)
      c.RT5645_CLK_SEL_I2S1_ASRC w.ext with ⟨r1, s1⟩
  rcases hclk : k.snd_soc_dai_set_sysclk rtd.codec_dai c.RT5645_SCLK_S_MCLK PLATFORM_CLOCK
      c.SND_SOC_CLOCK_IN s1 with ⟨r2, s2⟩
  rcases hjack : k.snd_soc_card_jack_new rtd.card "Headphone Jack" c.SND_JACK_HEADPHONE
      snd_soc_jack.headset_jack headset_jack_pin 1 s2 with ⟨r3, s3⟩
  by_cases h3 : r3 = 0
  · subst h3
    rcases hdet : k.rt5645_set_jack_detect rtd.codec (some snd_soc_jack.headset_jack) none none
        s3 with ⟨r4, s4⟩
    refine ⟨r1, r2, 0, r4, Or.inr ⟨rfl, ?_, ?_⟩⟩ <;>
      rw [init_run_jack_zero c k rtd w r1 r2 r4 s1 s2 s3 s4 hasrc hclk hjack hdet]
  · refine ⟨r1, r2, r3, 0, Or.inl ⟨h3, ?_, ?_⟩⟩ <;>
      rw [init_run_jack_nonzero c k rtd w r1 r2 r3 s1 s2 s3 hasrc hclk hjack h3]

/-- C5: if the jack allocation returns a non-zero code `e`, `init` returns `e`
after exactly three calls (ASRC selection, provisional `set_sysclk`, jack
allocation); `rt5645_set_jack_detect` is not among the calls issued, and the
external state is the one the jack allocation left. -/
theorem init_jack_alloc_failure_aborts (c : Consts) (k : Kernel σ)
    (rtd : snd_soc_pcm_runtime) (w : World σ) (r1 r2 e : Int) (s1 s2 s3 : σ)
    (hasrc : k.rt5645_sel_asrc_clk_src rtd.codec
      (c.RT5645_DA_STEREO_FILTER ||| c.RT5645_AD_STEREO_FILTER |||
       c.RT5645_DA_MONO_L_FILTER ||| c.RT5645_DA_MONO_R_FILTER)
      c.RT5645_CLK_SEL_I2S1_ASRC w.ext = (r1, s1))
    (hclk : k.snd_soc_dai_set_sysclk rtd.codec_dai c.RT5645_SCLK_S_MCLK PLATFORM_CLOCK
      c.SND_SOC_CLOCK_IN s1 = (r2, s2))
    (hjack : k.snd_soc_card_jack_new rtd.card "Headphone Jack" c.SND_JACK_HEADPHONE
      snd_soc_jack.headset_jack headset_jack_pin 1 s2 = (e, s3))
    (he : e ≠ 0) :
    (snd_rpi_aiy_voicebonnet_init c k rtd w).1 = e ∧
    (snd_rpi_aiy_voicebonnet_init c k rtd w).2.trace = w.trace ++
      [Event.call (Call.rt5645_sel_asrc_clk_src rtd.codec
          (c.RT5645_DA_STEREO_FILTER ||| c.RT5645_AD_STEREO_FILTER |||
           c.RT5645_DA_MONO_L_FILTER ||| c.RT5645_DA_MONO_R_FILTER)
          c.RT5645_CLK_SEL_I2S1_ASRC) r1,
       Event.call (Call.snd_soc_dai_set_sysclk rtd.codec_dai c.RT5645_SCLK_S_MCLK
          24576000 c.SND_SOC_CLOCK_IN) r2,
       Event.call (Call.snd_soc_card_jack_new rtd.card "Headphone Jack"
          c.SND_JACK_HEADPHONE snd_soc_jack.headset_jack headset_jack_pin 1) e] ∧
    (snd_rpi_aiy_voicebonnet_init c k rtd w).2.ext = s3 ∧
    (∀ (evs : List Event) (codec : Handle) (hp mic btn : Option snd_soc_jack) (ret : Int),
      (snd_rpi_aiy_voicebonnet_init c k rtd w).2.trace = w.trace ++ evs →
      Event.call (Call.rt5645_set_jack_detect codec hp mic btn) ret ∉ evs) := by
  rw [init_run_jack_nonzero c k rtd w r1 r2 e s1 s2 s3 hasrc hclk hjack he]
  refine ⟨rfl, rfl, rfl, ?_⟩
  intro evs codec hp mic btn ret htrace
  have hevs := List.append_cancel_left htrace
  subst hevs
  simp

/-- C5 with a jack allocation that fails with -12: `init` returns -12 after
three calls. -/
theorem init_jack_alloc_failure_aborts_witness :
    ((scripted_codec 0 0 0 (-12) 0).snd_soc_card_jack_new rtd0.card "Headphone Jack"
        linux.SND_JACK_HEADPHONE snd_soc_jack.headset_jack headset_jack_pin 1
        ⟨none, fun d => if d = 0 then some (0, 24576000) else none⟩
        = (-12, ⟨none, fun d => if d = 0 then some (0, 24576000) else none⟩) ∧
     (-12 : Int) ≠ 0) ∧
    (snd_rpi_aiy_voicebonnet_init linux (scripted_codec 0 0 0 (-12) 0) rtd0 (boot linux)).1
      = -12 ∧
    (snd_rpi_aiy_voicebonnet_init linux (scripted_codec 0 0 0 (-12) 0) rtd0
        (boot linux)).2.trace = (boot linux).trace ++
      [Event.call (Call.rt5645_sel_asrc_clk_src 3 (1 ||| 8 ||| 2 ||| 4) 1) 0,
       Event.call (Call.snd_soc_dai_set_sysclk 2 0 24576000 0) 0,
       Event.call (Call.snd_soc_card_jack_new 4 "Headphone Jack" 1
         snd_soc_jack.headset_jack headset_jack_pin 1) (-12)] :=
  ⟨⟨rfl, by decide⟩,
   (init_jack_alloc_failure_aborts linux (scripted_codec 0 0 0 (-12) 0) rtd0 (boot linux)
      0 0 (-12) CodecState.reset _ _ rfl rfl rfl (by decide)).1,
   (init_jack_alloc_failure_aborts linux (scripted_codec 0 0 0 (-12) 0) rtd0 (boot linux)
      0 0 (-12) CodecState.reset _ _ rfl rfl rfl (by decide)).2.1⟩

/-- C6, as stated, fails: with an ASRC selection that returns -22 and the other
three steps returning 0, `init` returns 0.  Hence it is not true that `init`
returns 0 only if none of the four steps failed. -/
theorem init_succeeds_despite_asrc_failure :
    (snd_rpi_aiy_voicebonnet_init linux (scripted_codec 0 0 (-22) 0 0) rtd0 (boot linux)).1
      = 0 ∧
    (snd_rpi_aiy_voicebonnet_init linux (scripted_codec 0 0 (-22) 0 0) rtd0
        (boot linux)).2.trace =
      [Event.call (Call.rt5645_sel_asrc_clk_src 3 15 1) (-22),
       Event.call (Call.snd_soc_dai_set_sysclk 2 0 24576000 0) 0,
       Event.call (Call.snd_soc_card_jack_new 4 "Headphone Jack" 1
         snd_soc_jack.headset_jack ⟨"Headphone", 0xFFFFF, false⟩ 1) 0,
       Event.call (Call.rt5645_set_jack_detect 3 (some snd_soc_jack.headset_jack) none none) 0] ∧
    ¬ (∀ asrc sysclk jack_new jack_detect : Int,
        (snd_rpi_aiy_voicebonnet_init linux (scripted_codec 0 sysclk asrc jack_new jack_detect)
          rtd0 (boot linux)).1 = 0 →
        0 ≤ asrc ∧ 0 ≤ sysclk ∧ jack_new = 0 ∧ 0 ≤ jack_detect) := by
  refine ⟨rfl, rfl, ?_⟩
  intro h
  have h22 := (h (-22) 0 0 0 rfl).1
  omega

/-- C6, amended: `init` returns 0 only if the jack allocation and the
jack-detect wiring both returned 0 (and then all four calls were issued); the
value returned by the ASRC selection has no influence on what `init` returns or
on the external state it leaves. -/
theorem init_success_requires_jack_steps (c : Consts) (k : Kernel σ)
    (rtd : snd_soc_pcm_runtime) (w : World σ) :
    ((snd_rpi_aiy_voicebonnet_init c k rtd w).1 = 0 →
      ∃ r1 r2 : Int,
        (snd_rpi_aiy_voicebonnet_init c k rtd w).2.trace = w.trace ++
      [Event.call (Call.rt5645_sel_asrc_clk_src rtd.codec
          (c.RT5645_DA_STEREO_FILTER ||| c.RT5645_AD_STEREO_FILTER |||
           c.RT5645_DA_MONO_L_FILTER ||| c.RT5645_DA_MONO_R_FILTER)
          c.RT5645_CLK_SEL_I2S1_ASRC) r1,
       Event.call (Call.snd_soc_dai_set_sysclk rtd.codec_dai c.RT5645_SCLK_S_MCLK
          24576000 c.SND_SOC_CLOCK_IN) r2,
       Event.call (Call.snd_soc_card_jack_new rtd.card "Headphone Jack"
          c.SND_JACK_HEADPHONE snd_soc_jack.headset_jack headset_jack_pin 1) 0,
       Event.call (Call.rt5645_set_jack_detect rtd.codec
          (some snd_soc_jack.headset_jack) none none) 0]) ∧
    (∀ v : Int,
      (snd_rpi_aiy_voicebonnet_init c
        { k with rt5645_sel_asrc_clk_src := fun codec filter_mask clk_src s =>
            (v, (k.rt5645_sel_asrc_clk_src codec filter_mask clk_src s).2) } rtd w).1
        = (snd_rpi_aiy_voicebonnet_init c k rtd w).1 ∧
      (snd_rpi_aiy_voicebonnet_init c
        { k with rt5645_sel_asrc_clk_src := fun codec filter_mask clk_src s =>
            (v, (k.rt5645_sel_asrc_clk_src codec filter_mask clk_src s).2) } rtd w).2.ext
        = (snd_rpi_aiy_voicebonnet_init c k rtd w).2.ext) := by
  constructor
  · intro hret
    obtain ⟨r1, r2, r3, r4, h | h⟩ := init_shapes c k rtd w
    · exact absurd (h.2.1.symm.trans hret) h.1
    · have h4 : r4 = 0 := h.2.1.symm.trans hret
      subst h4
      exact ⟨r1, r2, h.2.2⟩
  · intro v
    simp only [snd_rpi_aiy_voicebonnet_init, rt5645_sel_asrc_clk_src, snd_soc_dai_set_sysclk,
      snd_soc_card_jack_new, rt5645_set_jack_detect, invoke, dev_err]
    constructor <;> split <;> rfl

/-- C6 amended, on the recording codec: `init` returns 0 and the jack
allocation and the jack-detect wiring were issued and returned 0. -/
theorem init_success_requires_jack_steps_witness :
    (snd_rpi_aiy_voicebonnet_init linux recording_codec rtd0 (boot linux)).1 = 0 ∧
    ∃ r1 r2 : Int,
      (snd_rpi_aiy_voicebonnet_init linux recording_codec rtd0 (boot linux)).2.trace =
        (boot linux).trace ++
        [Event.call (Call.rt5645_sel_asrc_clk_src rtd0.codec
            (linux.RT5645_DA_STEREO_FILTER ||| linux.RT5645_AD_STEREO_FILTER |||
             linux.RT5645_DA_MONO_L_FILTER ||| linux.RT5645_DA_MONO_R_FILTER)
            linux.RT5645_CLK_SEL_I2S1_ASRC) r1,
         Event.call (Call.snd_soc_dai_set_sysclk rtd0.codec_dai linux.RT5645_SCLK_S_MCLK
            24576000 linux.SND_SOC_CLOCK_IN) r2,
         Event.call (Call.snd_soc_card_jack_new rtd0.card "Headphone Jack"
            linux.SND_JACK_HEADPHONE snd_soc_jack.headset_jack headset_jack_pin 1) 0,
         Event.call (Call.rt5645_set_jack_detect rtd0.codec
            (some snd_soc_jack.headset_jack) none none) 0] :=
  ⟨rfl, (init_success_requires_jack_steps linux recording_codec rtd0 (boot linux)).1 rfl⟩

/-- C10: when the jack allocation returns 0, `init` issues exactly four calls in
this order: the ASRC selection for the mask DA stereo | AD stereo | DA mono L |
DA mono R with source `RT5645_CLK_SEL_I2S1_ASRC`; `set_sysclk` with source
`RT5645_SCLK_S_MCLK`, 24576000, `SND_SOC_CLOCK_IN`; the allocation of the
`headset_jack` with the single pin "Headphone" (mask 0xFFFFF, not inverted);
the jack-detect wiring with that same jack; and it returns the result of the
wiring.  In every run `init` issues no `set_pll`, and every `set_sysclk` it
issues names `RT5645_SCLK_S_MCLK` at 24576000 in the input direction, so (the
two clock ids being different) none names `RT5645_SCLK_S_PLL1`. -/
theorem init_call_sequence (c : Consts) (k : Kernel σ) (rtd : snd_soc_pcm_runtime)
    (w : World σ) :
    (∀ (r1 r2 r4 : Int) (s1 s2 s3 s4 : σ),
      k.rt5645_sel_asrc_clk_src rtd.codec
        (c.RT5645_DA_STEREO_FILTER ||| c.RT5645_AD_STEREO_FILTER |||
         c.RT5645_DA_MONO_L_FILTER ||| c.RT5645_DA_MONO_R_FILTER)
        c.RT5645_CLK_SEL_I2S1_ASRC w.ext = (r1, s1) →
      k.snd_soc_dai_set_sysclk rtd.codec_dai c.RT5645_SCLK_S_MCLK PLATFORM_CLOCK
        c.SND_SOC_CLOCK_IN s1 = (r2, s2) →
      k.snd_soc_card_jack_new rtd.card "Headphone Jack" c.SND_JACK_HEADPHONE
        snd_soc_jack.headset_jack headset_jack_pin 1 s2 = (0, s3) →
      k.rt5645_set_jack_detect rtd.codec (some snd_soc_jack.headset_jack) none none s3
        = (r4, s4) →
      snd_rpi_aiy_voicebonnet_init c k rtd w =
        (r4, { ext := s4,
               card := w.card,
               trace := w.trace ++
                 [Event.call (Call.rt5645_sel_asrc_clk_src rtd.codec
                    (c.RT5645_DA_STEREO_FILTER ||| c.RT5645_AD_STEREO_FILTER |||
                     c.RT5645_DA_MONO_L_FILTER ||| c.RT5645_DA_MONO_R_FILTER)
                    c.RT5645_CLK_SEL_I2S1_ASRC) r1,
                  Event.call (Call.snd_soc_dai_set_sysclk rtd.codec_dai c.RT5645_SCLK_S_MCLK
                    24576000 c.SND_SOC_CLOCK_IN) r2,
                  Event.call (Call.snd_soc_card_jack_new rtd.card "Headphone Jack"
                    c.SND_JACK_HEADPHONE snd_soc_jack.headset_jack
                    ⟨"Headphone", 0xFFFFF, false⟩ 1) 0,
                  Event.call (Call.rt5645_set_jack_detect rtd.codec
                    (some snd_soc_jack.headset_jack) none none) r4],
               dmesg := w.dmesg })) ∧
    (∀ evs : List Event,
      (snd_rpi_aiy_voicebonnet_init c k rtd w).2.trace = w.trace ++ evs →
      (∀ dai pll_id source freq_in freq_out ret,
        Event.call (Call.snd_soc_dai_set_pll dai pll_id source freq_in freq_out) ret ∉ evs) ∧
      (∀ dai clk_id freq dir ret,
        Event.call (Call.snd_soc_dai_set_sysclk dai clk_id freq dir) ret ∈ evs →
        dai = rtd.codec_dai ∧ clk_id = c.RT5645_SCLK_S_MCLK ∧ freq = 24576000 ∧
          dir = c.SND_SOC_CLOCK_IN) ∧
      (c.RT5645_SCLK_S_MCLK ≠ c.RT5645_SCLK_S_PLL1 →
        ∀ dai freq dir ret,
          Event.call (Call.snd_soc_dai_set_sysclk dai c.RT5645_SCLK_S_PLL1 freq dir) ret
            ∉ evs)) := by
  constructor
  · intro r1 r2 r4 s1 s2 s3 s4 hasrc hclk hjack hdet
    rw [init_run_jack_zero c k rtd w r1 r2 r4 s1 s2 s3 s4 hasrc hclk hjack hdet]
    rfl
  · intro evs htrace
    have hsys : ∀ dai clk_id freq dir ret,
        Event.call (Call.snd_soc_dai_set_sysclk dai clk_id freq dir) ret ∈ evs →
        dai = rtd.codec_dai ∧ clk_id = c.RT5645_SCLK_S_MCLK ∧ freq = 24576000 ∧
          dir = c.SND_SOC_CLOCK_IN := by
      intro dai clk_id freq dir ret hmem
      obtain ⟨r1, r2, r3, r4, h | h⟩ := init_shapes c k rtd w
      · rw [h.2.2] at htrace
        have hevs := List.append_cancel_left htrace
        subst hevs
        simp at hmem
        exact ⟨hmem.1.1, hmem.1.2.1, hmem.1.2.2.1, hmem.1.2.2.2⟩
      · rw [h.2.2] at htrace
        have hevs := List.append_cancel_left htrace
        subst hevs
        simp at hmem
        exact ⟨hmem.1.1, hmem.1.2.1, hmem.1.2.2.1, hmem.1.2.2.2⟩
    refine ⟨?_, hsys, ?_⟩
    · intro dai pll_id source freq_in freq_out ret
      obtain ⟨r1, r2, r3, r4, h | h⟩ := init_shapes c k rtd w
      · rw [h.2.2] at htrace
        have hevs := List.append_cancel_left htrace
        subst hevs
        simp
      · rw [h.2.2] at htrace
        have hevs := List.append_cancel_left htrace
        subst hevs
        simp
    · intro hne dai freq dir ret hmem
      exact hne (hsys dai _ freq dir ret hmem).2.1.symm

/-- C10 on the recording codec: four calls, result 0, and no system clock other
than the provisional MCLK one is selected. -/
theorem init_call_sequence_witness :
    (recording_codec.snd_soc_card_jack_new rtd0.card "Headphone Jack" linux.SND_JACK_HEADPHONE
        snd_soc_jack.headset_jack headset_jack_pin 1
        ⟨none, fun d => if d = 0 then some (0, 24576000) else none⟩
      = (0, ⟨none, fun d => if d = 0 then some (0, 24576000) else none⟩)) ∧
    linux.RT5645_SCLK_S_MCLK ≠ linux.RT5645_SCLK_S_PLL1 ∧
    (snd_rpi_aiy_voicebonnet_init linux recording_codec rtd0 (boot linux)).1 = 0 ∧
    (snd_rpi_aiy_voicebonnet_init linux recording_codec rtd0 (boot linux)).2.trace =
      [Event.call (Call.rt5645_sel_asrc_clk_src 3 15 1) 0,
       Event.call (Call.snd_soc_dai_set_sysclk 2 0 24576000 0) 0,
       Event.call (Call.snd_soc_card_jack_new 4 "Headphone Jack" 1
         snd_soc_jack.headset_jack ⟨"Headphone", 0xFFFFF, false⟩ 1) 0,
       Event.call (Call.rt5645_set_jack_detect 3 (some snd_soc_jack.headset_jack) none none) 0] ∧
    (∀ dai freq dir ret,
      Event.call (Call.snd_soc_dai_set_sysclk dai linux.RT5645_SCLK_S_PLL1 freq dir) ret ∉
        (snd_rpi_aiy_voicebonnet_init linux recording_codec rtd0 (boot linux)).2.trace) :=
  ⟨rfl, by decide,
   congrArg Prod.fst
     ((init_call_sequence linux recording_codec rtd0 (boot linux)).1 0 0 0 _ _ _ _
        rfl rfl rfl rfl),
   congrArg (fun o => o.2.trace)
     ((init_call_sequence linux recording_codec rtd0 (boot linux)).1 0 0 0 _ _ _ _
        rfl rfl rfl rfl),
   ((init_call_sequence linux recording_codec rtd0 (boot linux)).2 _ rfl).2.2 (by decide)⟩

/-! ## Platform probe: `snd_rpi_aiy_voicebonnet_probe` -/

/-- The outcome of `probe` when the codec reference does not resolve. -/
theorem probe_run_codec_null (c : Consts) (k : Kernel σ) (pdev : platform_device)
    (w : World σ) (np : Handle) (s1 : σ)
    (hnode : pdev.dev.of_node = some np)
    (hcodec : k.of_parse_phandle np "aiy-voicebonnet,audio-codec" 0 w.ext = (none, s1)) :
    snd_rpi_aiy_voicebonnet_probe c k pdev w =
      (- c.EINVAL,
       { ext := s1,
         card := { w.card with
           dev := some pdev.dev,
           dai_link := { w.card.dai_link with codec_name := none, codec_of_node := none } },
         trace := w.trace ++
           [Event.of_parse_phandle np "aiy-voicebonnet,audio-codec" 0 none],
         dmesg := w.dmesg ++ [("Couldn't parse aiy-voicebonnet,audio-codec\n", [])] }) := by
  simp [snd_rpi_aiy_voicebonnet_probe, hnode, of_parse_phandle, hcodec, dev_err]

/-- The outcome of `probe` when the codec reference resolves and the
`"i2s-controller"` reference does not. -/
theorem probe_run_i2s_null (c : Consts) (k : Kernel σ) (pdev : platform_device)
    (w : World σ) (np codec_node : Handle) (r3 r4 : Int) (card3 card4 : snd_soc_card)
    (s1 s2 s3 s4 : σ)
    (hnode : pdev.dev.of_node = some np)
    (hcodec : k.of_parse_phandle np "aiy-voicebonnet,audio-codec" 0 w.ext
      = (some codec_node, s1))
    (hi2s : k.of_parse_phandle np "i2s-controller" 0 s1 = (none, s2))
    (hname : k.snd_soc_of_parse_card_name
      { w.card with
        dev := some pdev.dev,
        dai_link := { w.card.dai_link with
          codec_name := none, codec_of_node := some codec_node } }
      "google,model" s2 = (r3, card3, s3))
    (hreg : k.devm_snd_soc_register_card pdev.dev card3 s3 = (r4, card4, s4)) :
    snd_rpi_aiy_voicebonnet_probe c k pdev w =
      (r4,
       { ext := s4,
         card := card4,
         trace := w.trace ++
           [Event.of_parse_phandle np "aiy-voicebonnet,audio-codec" 0 (some codec_node),
            Event.of_parse_phandle np "i2s-controller" 0 none,
            Event.call (Call.snd_soc_of_parse_card_name
              { w.card with
                dev := some pdev.dev,
                dai_link := { w.card.dai_link with
                  codec_name := none, codec_of_node := some codec_node } }
              "google,model") r3,
            Event.call (Call.devm_snd_soc_register_card pdev.dev card3) r4],
         dmesg :=
           (if r3 ≠ 0 then w.dmesg ++ [("snd_soc_parse pailed: %d\n", [r3])] else w.dmesg) ++
           (if r4 ≠ 0 then [("devm_snd_soc_register_card() failed: %d\n", [r4])] else []) }) := by
  by_cases h3 : r3 = 0 <;> by_cases h4 : r4 = 0 <;>
  simp [snd_rpi_aiy_voicebonnet_probe, probe_i2s, probe_register, hnode, of_parse_phandle,
    snd_soc_of_parse_card_name, devm_snd_soc_register_card, invoke_card, hcodec, hi2s, hname,
    hreg, dev_err, h3, h4]

/-- C7: when the device has a device-tree node and the lookup of
`"aiy-voicebonnet,audio-codec"` yields no node, `probe` returns `-EINVAL`; the
only external call it has made is that lookup: it has not looked up
`"i2s-controller"`, not parsed the card name and not called
`devm_snd_soc_register_card`, so no card is registered by this probe. -/
theorem probe_codec_unresolved_fails (c : Consts) (k : Kernel σ) (pdev : platform_device)
    (w : World σ) (np : Handle) (s1 : σ)
    (hnode : pdev.dev.of_node = some np)
    (hcodec : k.of_parse_phandle np "aiy-voicebonnet,audio-codec" 0 w.ext = (none, s1)) :
    (snd_rpi_aiy_voicebonnet_probe c k pdev w).1 = - c.EINVAL ∧
    (snd_rpi_aiy_voicebonnet_probe c k pdev w).2.trace = w.trace ++
      [Event.of_parse_phandle np "aiy-voicebonnet,audio-codec" 0 none] ∧
    (snd_rpi_aiy_voicebonnet_probe c k pdev w).2.ext = s1 ∧
    (∀ evs : List Event,
      (snd_rpi_aiy_voicebonnet_probe c k pdev w).2.trace = w.trace ++ evs →
      (∀ node index res, Event.of_parse_phandle node "i2s-controller" index res ∉ evs) ∧
      (∀ card propname ret,
        Event.call (Call.snd_soc_of_parse_card_name card propname) ret ∉ evs) ∧
      (∀ dev card ret,
        Event.call (Call.devm_snd_soc_register_card dev card) ret ∉ evs)) := by
  rw [probe_run_codec_null c k pdev w np s1 hnode hcodec]
  refine ⟨rfl, rfl, rfl, ?_⟩
  intro evs htrace
  have hevs := List.append_cancel_left htrace
  subst hevs
  refine ⟨?_, ?_, ?_⟩
  · intro node index res hmem
    simp at hmem
  · intro card propname ret hmem
    simp at hmem
  · intro dev card ret hmem
    simp at hmem

/-- C7 on a device tree without the codec reference: `probe` returns -22 after
the single failed lookup. -/
theorem probe_codec_unresolved_fails_witness :
    (pdev0.dev.of_node = some 10 ∧
     (scripted_of none (some 12) 0 0).of_parse_phandle 10 "aiy-voicebonnet,audio-codec" 0
        (boot linux).ext = (none, CodecState.reset)) ∧
    (snd_rpi_aiy_voicebonnet_probe linux (scripted_of none (some 12) 0 0) pdev0
        (boot linux)).1 = -22 ∧
    (snd_rpi_aiy_voicebonnet_probe linux (scripted_of none (some 12) 0 0) pdev0
        (boot linux)).2.trace = (boot linux).trace ++
      [Event.of_parse_phandle 10 "aiy-voicebonnet,audio-codec" 0 none] :=
  ⟨⟨rfl, rfl⟩,
   (probe_codec_unresolved_fails linux (scripted_of none (some 12) 0 0) pdev0 (boot linux)
      10 CodecState.reset rfl rfl).1,
   (probe_codec_unresolved_fails linux (scripted_of none (some 12) 0 0) pdev0 (boot linux)
      10 CodecState.reset rfl rfl).2.1⟩

/-- C8, as stated, fails: with a codec reference that resolves (to node 11), an
`"i2s-controller"` reference that does not, and a registration that returns 0,
`probe` goes on to parse the card name and to call
`devm_snd_soc_register_card`, and returns 0. -/
theorem probe_registers_despite_unresolved_i2s :
    (scripted_of (some 11) none 0 0).of_parse_phandle 10 "i2s-controller" 0 CodecState.reset
      = (none, CodecState.reset) ∧
    (snd_rpi_aiy_voicebonnet_probe linux (scripted_of (some 11) none 0 0) pdev0
        (boot linux)).1 = 0 ∧
    (snd_rpi_aiy_voicebonnet_probe linux (scripted_of (some 11) none 0 0) pdev0
        (boot linux)).2.trace =
      [Event.of_parse_phandle 10 "aiy-voicebonnet,audio-codec" 0 (some 11),
       Event.of_parse_phandle 10 "i2s-controller" 0 none,
       Event.call (Call.snd_soc_of_parse_card_name
         { snd_rpi_aiy_voicebonnet linux with
           dev := some pdev0.dev,
           dai_link := { snd_rpi_aiy_voicebonnet_dai linux with codec_of_node := some 11 } }
         "google,model") 0,
       Event.call (Call.devm_snd_soc_register_card pdev0.dev
         { snd_rpi_aiy_voicebonnet linux with
           dev := some pdev0.dev,
           dai_link := { snd_rpi_aiy_voicebonnet_dai linux with codec_of_node := some 11 } })
         0] :=
  ⟨rfl, rfl, rfl⟩

/-- The tail of `probe` always issues the card-name parsing and then the card
registration, and returns the result of the registration. -/
theorem probe_register_run (k : Kernel σ) (pdev : platform_device) (v : World σ) :
    ∃ (r3 : Int) (card3 : snd_soc_card),
      (probe_register k pdev v).2.trace = v.trace ++
        [Event.call (Call.snd_soc_of_parse_card_name v.card "google,model") r3,
         Event.call (Call.devm_snd_soc_register_card pdev.dev card3)
           (probe_register k pdev v).1] := by
  refine ⟨(k.snd_soc_of_parse_card_name v.card "google,model" v.ext).1,
    (k.snd_soc_of_parse_card_name v.card "google,model" v.ext).2.1, ?_⟩
  simp only [probe_register, snd_soc_of_parse_card_name, devm_snd_soc_register_card,
    invoke_card, dev_err]
  split_ifs <;> simp

/-- The `"i2s-controller"` step of `probe` issues exactly one lookup. -/
theorem probe_i2s_run (k : Kernel σ) (np : Handle) (v : World σ) :
    (probe_i2s k np v).trace = v.trace ++
      [Event.of_parse_phandle np "i2s-controller" 0
        (k.of_parse_phandle np "i2s-controller" 0 v.ext).1] := by
  simp only [probe_i2s, of_parse_phandle]
  split <;> rfl

/-- Every run of `probe` that does not stop at an unresolved codec reference ends
with the card registration and returns its result. -/
theorem probe_run_registers (c : Consts) (k : Kernel σ) (pdev : platform_device)
    (w : World σ)
    (hres : ¬ ∃ np, pdev.dev.of_node = some np ∧
      (k.of_parse_phandle np "aiy-voicebonnet,audio-codec" 0 w.ext).1 = none) :
    ∃ (pre : List Event) (card : snd_soc_card),
      (snd_rpi_aiy_voicebonnet_probe c k pdev w).2.trace = w.trace ++ pre ++
        [Event.call (Call.devm_snd_soc_register_card pdev.dev card)
          (snd_rpi_aiy_voicebonnet_probe c k pdev w).1] := by
  have key : ∀ (v : World σ) (pre0 : List Event), v.trace = w.trace ++ pre0 →
      ∃ (pre : List Event) (card : snd_soc_card),
        (probe_register k pdev v).2.trace = w.trace ++ pre ++
          [Event.call (Call.devm_snd_soc_register_card pdev.dev card)
            (probe_register k pdev v).1] := by
    intro v pre0 hv
    obtain ⟨r3, card3, h⟩ := probe_register_run k pdev v
    refine ⟨pre0 ++ [Event.call (Call.snd_soc_of_parse_card_name v.card "google,model") r3],
      card3, ?_⟩
    rw [h, hv]
    simp
  rcases hnode : pdev.dev.of_node with _ | np
  · have hp : snd_rpi_aiy_voicebonnet_probe c k pdev w =
        probe_register k pdev { w with card := { w.card with dev := some pdev.dev } } := by
      simp only [snd_rpi_aiy_voicebonnet_probe, hnode]
    rw [hp]
    exact key _ [] (by simp)
  · rcases hcodec : (k.of_parse_phandle np "aiy-voicebonnet,audio-codec" 0 w.ext).1
      with _ | codec_node
    · exact absurd ⟨np, hnode, hcodec⟩ hres
    · simp only [snd_rpi_aiy_voicebonnet_probe, hnode, of_parse_phandle, hcodec]
      exact key _
        [Event.of_parse_phandle np "aiy-voicebonnet,audio-codec" 0 (some codec_node),
         Event.of_parse_phandle np "i2s-controller" 0
          (k.of_parse_phandle np "i2s-controller" 0
            (k.of_parse_phandle np "aiy-voicebonnet,audio-codec" 0 w.ext).2).1]
        (by rw [probe_i2s_run]; simp)

/-- C8, amended: when the codec reference resolves and the `"i2s-controller"`
reference does not, `probe` does not fail on that account: it leaves the CPU
and platform side of the link as they were, parses the card name (whatever that
returns), calls `devm_snd_soc_register_card` and returns the result of the
registration.  Only an unresolved codec reference makes `probe` stop before the
registration: in every run in which it is not the case that the device has a
device-tree node whose `"aiy-voicebonnet,audio-codec"` lookup yields no node
(no device-tree node at all, or a resolved codec with the `"i2s-controller"`
resolved or not), the last call `probe` issues is
`devm_snd_soc_register_card` on `&pdev->dev`, and `probe` returns its result. -/
theorem probe_i2s_unresolved_still_registers (c : Consts) (k : Kernel σ)
    (pdev : platform_device) (w : World σ) :
    (∀ (np codec_node : Handle) (r3 r4 : Int) (card3 card4 : snd_soc_card)
        (s1 s2 s3 s4 : σ),
      pdev.dev.of_node = some np →
      k.of_parse_phandle np "aiy-voicebonnet,audio-codec" 0 w.ext = (some codec_node, s1) →
      k.of_parse_phandle np "i2s-controller" 0 s1 = (none, s2) →
      k.snd_soc_of_parse_card_name
        { w.card with
          dev := some pdev.dev,
          dai_link := { w.card.dai_link with
            codec_name := none, codec_of_node := some codec_node } }
        "google,model" s2 = (r3, card3, s3) →
      k.devm_snd_soc_register_card pdev.dev card3 s3 = (r4, card4, s4) →
      (snd_rpi_aiy_voicebonnet_probe c k pdev w).1 = r4 ∧
      (snd_rpi_aiy_voicebonnet_probe c k pdev w).2.trace = w.trace ++
        [Event.of_parse_phandle np "aiy-voicebonnet,audio-codec" 0 (some codec_node),
         Event.of_parse_phandle np "i2s-controller" 0 none,
         Event.call (Call.snd_soc_of_parse_card_name
           { w.card with
             dev := some pdev.dev,
             dai_link := { w.card.dai_link with
               codec_name := none, codec_of_node := some codec_node } }
           "google,model") r3,
         Event.call (Call.devm_snd_soc_register_card pdev.dev card3) r4] ∧
      (snd_rpi_aiy_voicebonnet_probe c k pdev w).2.ext = s4 ∧
      (snd_rpi_aiy_voicebonnet_probe c k pdev w).2.card = card4) ∧
    ((¬ ∃ np, pdev.dev.of_node = some np ∧
        (k.of_parse_phandle np "aiy-voicebonnet,audio-codec" 0 w.ext).1 = none) →
      ∃ (pre : List Event) (card : snd_soc_card),
        (snd_rpi_aiy_voicebonnet_probe c k pdev w).2.trace = w.trace ++ pre ++
          [Event.call (Call.devm_snd_soc_register_card pdev.dev card)
            (snd_rpi_aiy_voicebonnet_probe c k pdev w).1]) := by
  constructor
  · intro np codec_node r3 r4 card3 card4 s1 s2 s3 s4 hnode hcodec hi2s hname hreg
    rw [probe_run_i2s_null c k pdev w np codec_node r3 r4 card3 card4 s1 s2 s3 s4
      hnode hcodec hi2s hname hreg]
    exact ⟨rfl, rfl, rfl, rfl⟩
  · exact probe_run_registers c k pdev w

/-- C8 amended, evaluated: on a device tree with the codec reference only and a
registration that returns -517, `probe` returns -517, the result of the
registration it attempted; on a device tree where both references resolve, the
run ends with the registration as well. -/
theorem probe_i2s_unresolved_still_registers_witness :
    (pdev0.dev.of_node = some 10 ∧
     (scripted_of (some 11) none 0 (-517)).of_parse_phandle 10
        "aiy-voicebonnet,audio-codec" 0 (boot linux).ext = (some 11, CodecState.reset) ∧
     (scripted_of (some 11) none 0 (-517)).of_parse_phandle 10 "i2s-controller" 0
        CodecState.reset = (none, CodecState.reset)) ∧
    (snd_rpi_aiy_voicebonnet_probe linux (scripted_of (some 11) none 0 (-517)) pdev0
        (boot linux)).1 = -517 ∧
    (¬ ∃ np, pdev0.dev.of_node = some np ∧
        ((scripted_of (some 11) (some 12) 0 0).of_parse_phandle np
          "aiy-voicebonnet,audio-codec" 0 (boot linux).ext).1 = none) ∧
    (∃ (pre : List Event) (card : snd_soc_card),
      (snd_rpi_aiy_voicebonnet_probe linux (scripted_of (some 11) (some 12) 0 0) pdev0
          (boot linux)).2.trace = (boot linux).trace ++ pre ++
        [Event.call (Call.devm_snd_soc_register_card pdev0.dev card)
          (snd_rpi_aiy_voicebonnet_probe linux (scripted_of (some 11) (some 12) 0 0) pdev0
            (boot linux)).1]) :=
  ⟨⟨rfl, rfl, rfl⟩,
   ((probe_i2s_unresolved_still_registers linux (scripted_of (some 11) none 0 (-517)) pdev0
      (boot linux)).1 10 11 0 (-517) _ _ CodecState.reset CodecState.reset CodecState.reset
      CodecState.reset rfl rfl rfl rfl rfl).1,
   (fun h => h.elim (fun _ hnp => Option.noConfusion hnp.2)),
   (probe_i2s_unresolved_still_registers linux (scripted_of (some 11) (some 12) 0 0) pdev0
      (boot linux)).2 (fun h => h.elim (fun _ hnp => Option.noConfusion hnp.2))⟩

/-! ## Repeated negotiation on the recording codec -/

/-- One run of `hw_params` on the recording codec. -/
theorem hw_params_recording (c : Consts) (substream : snd_pcm_substream)
    (params : snd_pcm_hw_params) (w : World CodecState) :
    snd_rpi_aiy_voicebonnet_hw_params c recording_codec substream params w =
      (0, { ext :=
              { pll := some (0, c.RT5645_PLL1_S_MCLK, 24576000,
                  u32 (params_rate params * 512)),
                sysclk := fun d =>
                  if d = c.SND_SOC_CLOCK_OUT then
                    some (c.RT5645_SCLK_S_PLL1, u32 (params_rate params * 512))
                  else if d = c.SND_SOC_CLOCK_IN then
                    some (c.RT5645_SCLK_S_PLL1, u32 (params_rate params * 512))
                  else w.ext.sysclk d },
             card := w.card,
             trace := w.trace ++
      [Event.call (Call.snd_soc_dai_set_pll substream.private_data.codec_dai 0
          c.RT5645_PLL1_S_MCLK 24576000 (u32 (params_rate params * 512))) 0,
       Event.call (Call.snd_soc_dai_set_sysclk substream.private_data.codec_dai
          c.RT5645_SCLK_S_PLL1 (u32 (params_rate params * 512)) c.SND_SOC_CLOCK_IN) 0,
       Event.call (Call.snd_soc_dai_set_sysclk substream.private_data.codec_dai
          c.RT5645_SCLK_S_PLL1 (u32 (params_rate params * 512)) c.SND_SOC_CLOCK_OUT) 0],
             dmesg := w.dmesg }) := by
  rw [hw_params_run_sysclk_out c recording_codec substream params w 0 0 0 _ _ _ rfl (le_refl 0)
    rfl (le_refl 0) rfl]
  rfl

/-- C9: on the recording codec, running `hw_params` twice in succession with the
same parameters returns 0 both times, issues the same three calls with the same
arguments and results both times, and leaves the same codec state (PLL and
system-clock selections) as running it once: the PLL at 24576000 in and the
32-bit `r * 512` out, both directions of the system clock on
`RT5645_SCLK_S_PLL1` at that frequency.  For any kernel, the whole outcome of
`hw_params` depends on the parameters through the rate only, not through width
or format. -/
theorem hw_params_idempotent (c : Consts) (substream : snd_pcm_substream)
    (params : snd_pcm_hw_params) (w : World CodecState) :
    (snd_rpi_aiy_voicebonnet_hw_params c recording_codec substream params w).1 = 0 ∧
    (snd_rpi_aiy_voicebonnet_hw_params c recording_codec substream params
      (snd_rpi_aiy_voicebonnet_hw_params c recording_codec substream params w).2).1 = 0 ∧
    (snd_rpi_aiy_voicebonnet_hw_params c recording_codec substream params w).2.trace
      = w.trace ++
      [Event.call (Call.snd_soc_dai_set_pll substream.private_data.codec_dai 0
          c.RT5645_PLL1_S_MCLK 24576000 (u32 (params_rate params * 512))) 0,
       Event.call (Call.snd_soc_dai_set_sysclk substream.private_data.codec_dai
          c.RT5645_SCLK_S_PLL1 (u32 (params_rate params * 512)) c.SND_SOC_CLOCK_IN) 0,
       Event.call (Call.snd_soc_dai_set_sysclk substream.private_data.codec_dai
          c.RT5645_SCLK_S_PLL1 (u32 (params_rate params * 512)) c.SND_SOC_CLOCK_OUT) 0] ∧
    (snd_rpi_aiy_voicebonnet_hw_params c recording_codec substream params
      (snd_rpi_aiy_voicebonnet_hw_params c recording_codec substream params w).2).2.trace
      = (snd_rpi_aiy_voicebonnet_hw_params c recording_codec substream params w).2.trace ++
      [Event.call (Call.snd_soc_dai_set_pll substream.private_data.codec_dai 0
          c.RT5645_PLL1_S_MCLK 24576000 (u32 (params_rate params * 512))) 0,
       Event.call (Call.snd_soc_dai_set_sysclk substream.private_data.codec_dai
          c.RT5645_SCLK_S_PLL1 (u32 (params_rate params * 512)) c.SND_SOC_CLOCK_IN) 0,
       Event.call (Call.snd_soc_dai_set_sysclk substream.private_data.codec_dai
          c.RT5645_SCLK_S_PLL1 (u32 (params_rate params * 512)) c.SND_SOC_CLOCK_OUT) 0] ∧
    (snd_rpi_aiy_voicebonnet_hw_params c recording_codec substream params
      (snd_rpi_aiy_voicebonnet_hw_params c recording_codec substream params w).2).2.ext
      = (snd_rpi_aiy_voicebonnet_hw_params c recording_codec substream params w).2.ext ∧
    (snd_rpi_aiy_voicebonnet_hw_params c recording_codec substream params w).2.ext.pll
      = some (0, c.RT5645_PLL1_S_MCLK, 24576000, u32 (params_rate params * 512)) ∧
    (snd_rpi_aiy_voicebonnet_hw_params c recording_codec substream params w).2.ext.sysclk
        c.SND_SOC_CLOCK_IN
      = some (c.RT5645_SCLK_S_PLL1, u32 (params_rate params * 512)) ∧
    (snd_rpi_aiy_voicebonnet_hw_params c recording_codec substream params w).2.ext.sysclk
        c.SND_SOC_CLOCK_OUT
      = some (c.RT5645_SCLK_S_PLL1, u32 (params_rate params * 512)) ∧
    (∀ (τ : Type) (k : Kernel τ) (v : World τ) (params2 : snd_pcm_hw_params),
      params_rate params2 = params_rate params →
      snd_rpi_aiy_voicebonnet_hw_params c k substream params2 v
        = snd_rpi_aiy_voicebonnet_hw_params c k substream params v) := by
  refine ⟨?_, ?_, ?_, ?_, ?_, ?_, ?_, ?_, ?_⟩
  · rw [hw_params_recording]
  · rw [hw_params_recording]
  · rw [hw_params_recording]
  · rw [hw_params_recording, hw_params_recording]
  · rw [hw_params_recording, hw_params_recording]
    simp only [CodecState.mk.injEq, true_and]
    funext d
    split_ifs <;> rfl
  · rw [hw_params_recording]
  · rw [hw_params_recording]
    simp only
    split_ifs <;> rfl
  · rw [hw_params_recording]
    simp
  · intro τ k v params2 hrate
    simp only [snd_rpi_aiy_voicebonnet_hw_params, hrate]

/-- C9 at rate 48000: a 16-bit and a 32-bit request program the same values. -/
theorem hw_params_idempotent_witness :
    params_rate ⟨48000, 32, 10⟩ = params_rate ⟨48000, 16, 2⟩ ∧
    snd_rpi_aiy_voicebonnet_hw_params linux recording_codec substream0 ⟨48000, 32, 10⟩
        (boot linux)
      = snd_rpi_aiy_voicebonnet_hw_params linux recording_codec substream0 ⟨48000, 16, 2⟩
        (boot linux) :=
  ⟨rfl,
   (hw_params_idempotent linux substream0 ⟨48000, 16, 2⟩ (boot linux)).2.2.2.2.2.2.2.2
      CodecState recording_codec (boot linux) ⟨48000, 32, 10⟩ rfl⟩

end AiyVoiceBonnet
